import Mathlib

/-!
Verification development for the `ctk_interactive_canvas` repository
(`src/ctk_interactive_canvas/draggable_rectangle.py` and
`src/ctk_interactive_canvas/interactive_canvas.py`).

Modelling conventions (shallow embedding):
* Python floats holding canvas coordinates (the geometry the claims C1-C8
  and C10 touch) are modelled as exact rationals (`ℚ`); those quantities are
  produced by `+ - * /`, floor division and comparisons on small decimal
  literals, so the rational idealization models them exactly.
* The mm/px conversion pipeline of C9 is ulp-sensitive, so it is modelled
  with an explicit IEEE-754 binary64 semantics over `ℚ`: `roundDouble`
  performs round-to-nearest-ties-to-even at 53 bits of precision (exact for
  the normal range, which covers every value these pipelines produce), and
  `fmul`/`fdiv` round the exact product/quotient, as IEEE requires.
* Python `int` values (DPI, indices) are modelled as `Int`; item ids as `Nat`.
* Python dicts with insertion order (`canvas.objects`, `canvas.selected_objects`)
  are modelled as insertion-ordered association lists of keys;
  `selected_objects` stores only the key list since its values always alias
  the entries of `objects` (both are kept consistent by every method that
  touches them).
* Code that can raise returns `Except PyErr _`.  Every raise that the claims
  exercise happens before the raising method has mutated any canvas-tracked
  state, so an `Except.error` result leaves the caller's state unchanged.
-/

/-- Python exception kinds raised by the embedded code paths. -/
inductive PyErr
  | attributeError
  | valueError
  | indexError
  | typeError
  | keyError
  | zeroDivisionError
  deriving DecidableEq, Repr

/-- Colors are opaque toolkit data; the code only stores and compares them. -/
abbrev Color := Nat

/-- State of one `DraggableRectangle` together with the coordinates the host
canvas holds for its two items (`self.rect`, a 4-coordinate rectangle, and
`self.resize_handle`, a circle centered at `(hx, hy)`).

The structure's fields are exactly the data reachable from the instance
attributes assigned by `DraggableRectangle.__init__`
(draggable_rectangle.py lines 116-141): `canvas`, `dpi`, `is_selected`,
`original_outline`, `rect`, `resize_handle`, `keyboard_state`, `_self_ref`.
The coordinates of the two canvas items are inlined as fields
(`x0 y0 x1 y1` for `self.rect`, `hx hy` for `self.resize_handle`).

`fill_color_attr`, `line_width_attr` and `handle_radius_attr` model the
*optional* presence of dynamic instance attributes named `fill_color`,
`line_width` and `handle_radius`: `interactive_canvas.py` lines 701-703 read
them, but no statement anywhere in the repository ever assigns them (the
`fill`/`width` kwargs and the `radius` parameter of `__init__` are forwarded
to the toolkit drawing primitives and discarded), so every constructor in
this file sets them to `none` and a Python read raises `AttributeError`. -/
structure DRect where
  x0 : ℚ
  y0 : ℚ
  x1 : ℚ
  y1 : ℚ
  hx : ℚ
  hy : ℚ
  dpi : Int
  is_selected : Bool
  original_outline : Color
  displayed_outline : Color
  fill_color_attr : Option Color
  line_width_attr : Option ℚ
  handle_radius_attr : Option ℚ
  deriving DecidableEq, Repr

/-- `DraggableRectangle.__init__(canvas, x1, y1, x2, y2, dpi, radius, **kwargs)`:
the rectangle item gets coordinates `(x1, y1, x2, y2)`, the resize handle is
created at `(x2, y2)`, `is_selected` is `False`, and `original_outline` is the
`outline` kwarg.  The `fill`/`width` kwargs and `radius` are not stored as
instance attributes. -/
def DRect.init (x1 y1 x2 y2 : ℚ) (dpi : Int) (outline : Color) : DRect :=
  { x0 := x1, y0 := y1, x1 := x2, y1 := y2
    hx := x2, hy := y2
    dpi := dpi
    is_selected := false
    original_outline := outline
    displayed_outline := outline
    fill_color_attr := none
    line_width_attr := none
    handle_radius_attr := none }

/-- Python attribute read of a dynamic attribute: `AttributeError` if absent. -/
def readAttr {α : Type} (a : Option α) : Except PyErr α :=
  match a with
  | some v => Except.ok v
  | none => Except.error PyErr.attributeError

/-- Python `int(x)` on a (finite) real value: truncation toward zero. -/
def pyInt (q : ℚ) : Int :=
  q.num.tdiv q.den

/-- Round-to-nearest, ties-to-even, of a rational to an integer: the
rounding mode of every IEEE-754 binary64 operation. -/
def rnEven (x : ℚ) : ℤ :=
  if x - ⌊x⌋ < 1 / 2 then ⌊x⌋
  else if (1 : ℚ) / 2 < x - ⌊x⌋ then ⌊x⌋ + 1
  else if 2 ∣ ⌊x⌋ then ⌊x⌋ else ⌊x⌋ + 1

/-- The scaling exponent of the binade of `q`: a nonzero normal double in
the binade `[2 ^ (e + 52), 2 ^ (e + 53))` is an integer multiple of
`2 ^ e` with a 53-bit integer mantissa. -/
def expOf (q : ℚ) : ℤ := Int.log 2 |q| - 52

/-- The IEEE-754 binary64 value nearest to the real number `q`
(round-to-nearest-even): scale `q` into its binade, round the 53-bit
mantissa to the nearest integer with ties to even, and scale back.  This
is exactly the result CPython's float arithmetic stores for every value in
the normal range `2 ^ (-1022) ≤ |q| < 2 ^ 1024`, which covers every
intermediate value of the conversion pipelines evaluated in this file
(all lie between roughly 0.99 and 2540); overflow, subnormals and NaN are
outside the modelled range and never reached here. -/
def roundDouble (q : ℚ) : ℚ :=
  if q = 0 then 0
  else ((rnEven (q / 2 ^ expOf q) : ℤ) : ℚ) * 2 ^ expOf q

/-- An IEEE binary64 multiplication: the exact product, correctly rounded. -/
def fmul (a b : ℚ) : ℚ := roundDouble (a * b)

/-- An IEEE binary64 division: the exact quotient, correctly rounded. -/
def fdiv (a b : ℚ) : ℚ := roundDouble (a / b)

/-- The double denoted by the source literal `25.4`
(draggable_rectangle.py lines 1331 and 1355): the binary64 nearest to
127/5, which is `7149464408450662 * 2 ^ (-48)`, slightly **below** 25.4. -/
def float25_4 : ℚ := roundDouble ((254 : ℚ) / 10)

/-- `DraggableRectangle.convert_px_to_mm(pixels, dpi)`
(draggable_rectangle.py lines 1337-1359): `millimeters = pixels * 25.4 / dpi`,
evaluated left to right in IEEE binary64 arithmetic (CPython floats).  An
integer operand is converted to double exactly whenever its magnitude is
at most `2 ^ 53`, which holds for every input in this development. -/
def convert_px_to_mm (pixels : ℚ) (dpi : Int) : ℚ :=
  fdiv (fmul pixels float25_4) ((dpi : ℤ) : ℚ)

/-- `DraggableRectangle.convert_mm_to_px(millimeters, dpi)`
(draggable_rectangle.py lines 1313-1335): `pixels = int(millimeters * dpi / 25.4)`
— the same IEEE pipeline followed by `int()` truncation toward zero. -/
def convert_mm_to_px (mm : ℚ) (dpi : Int) : Int :=
  pyInt (fdiv (fmul mm ((dpi : ℤ) : ℚ)) float25_4)

/-- Modelled from the spec: the conversion formula `px = mm * dpi / 25.4`
of section 4.1, read as exact real arithmetic.  This is the idealized
counterpart of `convert_px_to_mm`, kept for comparison with the IEEE
semantics the code actually has. -/
def convert_px_to_mm_exact (pixels : ℚ) (dpi : Int) : ℚ :=
  pixels * ((254 : ℚ) / 10) / (dpi : ℚ)

/-- Modelled from the spec: the inverse formula of section 4.1 in exact
real arithmetic, followed by the integer truncation the code performs. -/
def convert_mm_to_px_exact (mm : ℚ) (dpi : Int) : Int :=
  pyInt (mm * (dpi : ℚ) / ((254 : ℚ) / 10))

/-- The four rectangle coordinates as the ordered Python list
`[x0, y0, x1, y1]` returned by `canvas.coords(self.rect)`. -/
def DRect.coordsList (r : DRect) : List ℚ :=
  [r.x0, r.y0, r.x1, r.y1]

/-- Validity predicate of the rectangle data model: positive width and height. -/
def validQuad (a b c d : ℚ) : Prop := a < c ∧ b < d

instance (a b c d : ℚ) : Decidable (validQuad a b c d) := by
  unfold validQuad; infer_instance

/-- `DraggableRectangle.__setitem__(index, value)`
(draggable_rectangle.py lines 242-268).  The index must be an `int` (the
callers the claims quantify over always pass one, so the `TypeError` branch
is not reachable here); `IndexError` outside `[-4, 4)`; Python's negative
indexing maps `index` to `index + 4`; the validity check `x1 <= x0 or
y1 <= y0` runs on the updated coordinate list and raises `ValueError`
*before* the two `canvas.coords` mutations, so on error the rectangle and
its handle are untouched. -/
def setitem_ (r : DRect) (index : Int) (value : ℚ) : Except PyErr DRect :=
  if index < -4 ∨ 4 ≤ index then Except.error PyErr.indexError
  else
    let idx : Nat := (if index < 0 then index + 4 else index).toNat
    let coords := r.coordsList.set idx value
    match coords with
    | [a, b, c, d] =>
      if c ≤ a ∨ d ≤ b then Except.error PyErr.valueError
      else Except.ok { r with x0 := a, y0 := b, x1 := c, y1 := d, hx := c, hy := d }
    | _ => Except.error PyErr.typeError

/-- Python `try`: run a mutation that may raise; the caller observing an
exception sees the pre-call state whenever the raise precedes every mutation,
which holds for each embedded operation (see the operation's doc comment). -/
def pyRun {σ : Type} (s : σ) (e : Except PyErr σ) : σ :=
  match e with
  | Except.ok s' => s'
  | Except.error _ => s

/-- One entry of the snapshot dict built by `InteractiveCanvas.save_state`
(interactive_canvas.py lines 695-704): the keys `coords`, `dpi`, `outline`,
`fill`, `line_width`, `handle_radius`. -/
structure SnapEntry where
  coords : List ℚ
  dpi : Int
  outline : Color
  fill : Color
  line_width : ℚ
  handle_radius : ℚ
  deriving DecidableEq, Repr

/-- One history snapshot: `{"objects": {...}, "next_item_id": ..., "selected": [...]}`
(interactive_canvas.py lines 689-693). -/
structure Snap where
  objects : List (Nat × SnapEntry)
  next_item_id : Nat
  selected : List Nat
  deriving DecidableEq, Repr

/-- The initial empty state saved by `_save_initial_state`
(interactive_canvas.py lines 107-110):
`{"objects": {}, "next_item_id": 0, "selected": []}`. -/
def emptySnap : Snap :=
  { objects := [], next_item_id := 0, selected := [] }

/-- The canvas-tracked state of an `InteractiveCanvas`
(interactive_canvas.py `__init__`, with history enabled).  `selected_ids`
is the insertion-ordered key list of `self.selected_objects`; its values in
Python always alias the entries of `objects` under the same keys. -/
structure CState where
  objects : List (Nat × DRect)
  selected_ids : List Nat
  next_item_id : Nat
  enable_history : Bool
  history_states : List Snap
  history_index : Nat
  max_history : Nat
  select_outline_color : Color
  dragging : Bool
  deriving DecidableEq, Repr

/-- A fresh history-enabled canvas after `InteractiveCanvas.__init__`
(`enable_history=True`, `max_history=50`, `_save_initial_state` run). -/
def initialCanvas : CState :=
  { objects := []
    selected_ids := []
    next_item_id := 0
    enable_history := true
    history_states := [emptySnap]
    history_index := 0
    max_history := 50
    select_outline_color := 1
    dragging := false }

/-- Python dict read `d[k]` on the `objects` dict (first binding wins;
in reachable states the keys are distinct). -/
def dictGet (l : List (Nat × DRect)) (k : Nat) : Option DRect :=
  (l.find? (fun p => p.1 = k)).map (fun p => p.2)

/-- Python dict value update `d[k].attr = v`-style in-place object mutation:
every binding of key `k` is replaced (reachable dicts bind each key once). -/
def dictSet (l : List (Nat × DRect)) (k : Nat) (r : DRect) : List (Nat × DRect) :=
  l.map (fun p => if p.1 = k then (k, r) else p)

/-- The per-object snapshot entry built inside the `save_state` loop
(interactive_canvas.py lines 696-704).  `coords = list(obj)` reads the
canvas coordinates; `obj.dpi` and `obj.original_outline` exist on every
instance; `obj.fill_color`, `obj.line_width` and `obj.handle_radius` are
dynamic-attribute reads that raise `AttributeError` when absent. -/
def snapEntryOf (obj : DRect) : Except PyErr SnapEntry := do
  let coords := obj.coordsList
  let fill ← readAttr obj.fill_color_attr
  let lw ← readAttr obj.line_width_attr
  let hr ← readAttr obj.handle_radius_attr
  pure { coords := coords, dpi := obj.dpi, outline := obj.original_outline
         fill := fill, line_width := lw, handle_radius := hr }

/-- The history-mutating tail of `InteractiveCanvas.save_state`
(interactive_canvas.py lines 706-716): truncate the future states when the
cursor is not at the tip, append the snapshot, then either evict the
oldest entry (`pop(0)`, cap exceeded, cursor kept where it is) or advance
the cursor. -/
def save_push (s : CState) (snap : Snap) : CState :=
  let hist :=
    if s.history_index + 1 < s.history_states.length then
      s.history_states.take (s.history_index + 1)
    else s.history_states
  let hist := hist ++ [snap]
  if s.max_history < hist.length then
    { s with history_states := hist.drop 1 }
  else
    { s with history_states := hist, history_index := s.history_index + 1 }

/-- `InteractiveCanvas.save_state` (interactive_canvas.py lines 666-716):
build the snapshot (raising out of the per-object loop if a style
attribute is missing, before any mutation of
`history_states`/`history_index`), then push it via `save_push`. -/
def save_state (s : CState) : Except PyErr CState :=
  if s.enable_history = false then Except.ok s
  else do
    let entries ← s.objects.mapM (fun p => do
      let e ← snapEntryOf p.2
      pure (p.1, e))
    pure (save_push s
      { objects := entries, next_item_id := s.next_item_id, selected := s.selected_ids })

/-- `InteractiveCanvas.select_item` (interactive_canvas.py lines 612-623):
`obj = self.objects[item_id]` (KeyError when absent, before any mutation),
set the object's selection flag, recolor its outline to the select color,
insert it into `selected_objects` (dict assignment: existing key keeps its
position), fire the select callback (external, no canvas-state effect). -/
def select_item (s : CState) (item_id : Nat) : Except PyErr CState :=
  match dictGet s.objects item_id with
  | none => Except.error PyErr.keyError
  | some obj =>
    let obj' := { obj with is_selected := true, displayed_outline := s.select_outline_color }
    Except.ok { s with
      objects := dictSet s.objects item_id obj'
      selected_ids :=
        if s.selected_ids.contains item_id then s.selected_ids
        else s.selected_ids ++ [item_id] }

/-- `InteractiveCanvas.deselect_item` (interactive_canvas.py lines 630-642):
`obj = self.objects[item_id]` (KeyError when absent), clear the flag,
restore the original outline, drop the key from `selected_objects`, fire
the deselect callback (external). -/
def deselect_item (s : CState) (item_id : Nat) : Except PyErr CState :=
  match dictGet s.objects item_id with
  | none => Except.error PyErr.keyError
  | some obj =>
    let obj' := { obj with is_selected := false, displayed_outline := obj.original_outline }
    Except.ok { s with
      objects := dictSet s.objects item_id obj'
      selected_ids := s.selected_ids.filter (fun j => j ≠ item_id) }

/-- `InteractiveCanvas.toggle_selection` (interactive_canvas.py lines 600-610). -/
def toggle_selection (s : CState) (item_id : Nat) : Except PyErr CState :=
  match dictGet s.objects item_id with
  | none => Except.error PyErr.keyError
  | some obj =>
    if obj.is_selected then deselect_item s item_id else select_item s item_id

/-- `InteractiveCanvas.deselect_all` (interactive_canvas.py lines 644-647):
deselect every currently selected id, in selection order. -/
def deselect_all (s : CState) : Except PyErr CState :=
  s.selected_ids.foldlM (fun st j => deselect_item st j) s

/-- `InteractiveCanvas.get_selected` (interactive_canvas.py lines 398-405):
the values of `selected_objects` in insertion order; each key's value
aliases the object bound to the same key in `objects`. -/
def get_selected (s : CState) : List DRect :=
  s.selected_ids.filterMap (fun j => dictGet s.objects j)

/-- Equality test used by `rect not in self.objects.values()`
(interactive_canvas.py line 190): Python `in` on dict values compares with
`DraggableRectangle.__eq__` (draggable_rectangle.py lines 300-316), which
compares the four canvas coordinates within a `1e-9` tolerance. -/
def dunderEq (a b : DRect) : Bool :=
  decide (|a.x0 - b.x0| < 1 / 1000000000) &&
  decide (|a.y0 - b.y0| < 1 / 1000000000) &&
  decide (|a.x1 - b.x1| < 1 / 1000000000) &&
  decide (|a.y1 - b.y1| < 1 / 1000000000)

/-- `InteractiveCanvas._register_rectangle` (interactive_canvas.py lines
175-192): if the rectangle is not yet among the dict's values, bind it to
`next_item_id` and increment the counter.  Its docstring says it is called
automatically when a `DraggableRectangle` is instantiated, but no call site
exists anywhere in the repository (`DraggableRectangle.__init__` never calls
it) — the defect behind claims C1 and C2.  The `_suppress_registration`
early-return is omitted: nothing that calls this embedding runs during a
state restore. -/
def register_rectangle (s : CState) (rect : DRect) : CState :=
  if s.objects.any (fun p => dunderEq p.2 rect) then s
  else { s with
    objects := s.objects ++ [(s.next_item_id, rect)]
    next_item_id := s.next_item_id + 1 }

/-- `InteractiveCanvas.create_draggable_rectangle`
(interactive_canvas.py lines 221-302), canvas-state effect with
`center_on_canvas=False`.  The constructor call
`DraggableRectangle(self, x1, y1, x2, y2, **kwargs)` creates the two
toolkit items and assigns the instance attributes but never touches
`self.objects`/`self.next_item_id` (no registration call exists); the
overlap-avoidance loop (lines 277-297) reads `self.objects` and moves only
the freshly created, unregistered rectangle, so it has no canvas-state
effect either.  The only tracked-state mutation is the final
`save_state()` call; on a raise inside it the canvas state is unchanged.
The constructed rectangle is returned to the Python caller and plays no
further role in the canvas state, so it is not returned here. -/
def create_draggable_rectangle (s : CState) (x1 y1 x2 y2 : ℚ) : Except PyErr CState :=
  let _ := DRect.init x1 y1 x2 y2 300 0
  save_state s

/-- `InteractiveCanvas.delete_draggable_rectangle`
(interactive_canvas.py lines 356-381): no-op for an unknown id; otherwise
delete the attached items and the two canvas items (untracked), then drop
the id from `objects` and from `selected_objects`.  The deselect callback
is external. -/
def delete_draggable_rectangle (s : CState) (item_id : Nat) : CState :=
  match dictGet s.objects item_id with
  | none => s
  | some _ =>
    { s with
      objects := s.objects.filter (fun p => p.1 ≠ item_id)
      selected_ids := s.selected_ids.filter (fun j => j ≠ item_id) }

/-- The `DraggableRectangle(self, coords[0], ..., radius=...)` rebuild call
inside `_restore_state` (interactive_canvas.py lines 781-792): a fresh
rectangle from the stored coordinates and style (the coordinate list of a
stored entry always has shape `[x0, y0, x1, y1]`; a malformed one rebuilds
from zeros, matching the `[0, 0, 0, 0]` fallback of the overridden
`coords` method at lines 216-218). -/
def rebuildRect (e : SnapEntry) : DRect :=
  match e.coords with
  | [a, b, c, d] => DRect.init a b c d e.dpi e.outline
  | _ => DRect.init 0 0 0 0 e.dpi e.outline

/-- `InteractiveCanvas._restore_state` (interactive_canvas.py lines
746-803): delete every live rectangle with callbacks suppressed, clear both
dicts, restore `next_item_id`, recreate each rectangle from its snapshot
entry (auto-registration suppressed, ids taken from the snapshot keys),
then re-select the saved selection via `select_item` for ids present in the
rebuilt dict. -/
def restore_state (s : CState) (snap : Snap) : CState :=
  let base := { s with
    objects := snap.objects.map (fun p => (p.1, rebuildRect p.2))
    selected_ids := []
    next_item_id := snap.next_item_id }
  snap.selected.foldl
    (fun st j => if (dictGet st.objects j).isSome then pyRun st (select_item st j) else st)
    base

/-- `InteractiveCanvas.undo` (interactive_canvas.py lines 718-731): when the
cursor is positive, step it back and rebuild from that snapshot.  The
in-bounds list read `self.history_states[self.history_index]` is total in
Python; the (unreachable, cursor < length in every reachable state)
out-of-bounds case is embedded as a no-op. -/
def undo (s : CState) : CState :=
  if s.enable_history = false then s
  else if 0 < s.history_index then
    match s.history_states.get? (s.history_index - 1) with
    | some snap => restore_state { s with history_index := s.history_index - 1 } snap
    | none => { s with history_index := s.history_index - 1 }
  else s

/-- `InteractiveCanvas.redo` (interactive_canvas.py lines 733-744):
symmetric to `undo`, stepping the cursor forward when a future state
exists. -/
def redo (s : CState) : CState :=
  if s.enable_history = false then s
  else if s.history_index + 1 < s.history_states.length then
    match s.history_states.get? (s.history_index + 1) with
    | some snap => restore_state { s with history_index := s.history_index + 1 } snap
    | none => { s with history_index := s.history_index + 1 }
  else s

/-- `InteractiveCanvas.on_click` (interactive_canvas.py lines 431-461) with
panning off.  The toolkit hit test (`find_overlapping` plus the
`obj.rect in clicked_items` scan over `objects.items()`) is abstracted by
`hit`: `some item_id` is the first id in dict order whose rectangle item is
under the cursor, `none` means empty space was clicked.  The branch ladder
is verbatim from the source; `shift` is bit 0x0001 and `ctrl` bit 0x0004 of
the event state. -/
def on_click (s : CState) (shift ctrl : Bool) (hit : Option Nat) : Except PyErr CState :=
  match hit with
  | some item_id =>
    match dictGet s.objects item_id with
    | none => Except.ok s
    | some obj =>
      if shift && !obj.is_selected then
        toggle_selection s item_id
      else if !shift && !obj.is_selected then do
        let s' ← deselect_all s
        select_item s' item_id
      else if ctrl then do
        let s' ← deselect_all s
        select_item s' item_id
      else if (get_selected s).length < 1 then do
        let s' ← deselect_all s
        select_item s' item_id
      else Except.ok s
  | none => do
    let s' ← deselect_all s
    Except.ok { s' with dragging := true }

/-- The candidate new coordinates computed for one selected rectangle inside
`DraggableRectangle.on_resize_drag` (draggable_rectangle.py lines
1268-1304): `dx`/`dy` are the pointer deltas since the last event; `alt`
zeroes the smaller-magnitude component; otherwise `shift` recomputes one
delta from the other through the current aspect ratio (degrading to
`new_dy = 0` when the height is 0); `ctrl` grows symmetrically from the
center.  (When `shift` is held with height positive and width zero the
Python division `dx / aspect_ratio` raises `ZeroDivisionError`; the claims
are stated under the data-model invariant of positive width and height,
where the rational division used here agrees with Python.) -/
def resizeCandidate (alt shift ctrl : Bool) (dx dy : ℚ) (r : DRect) : ℚ × ℚ × ℚ × ℚ :=
  let w := r.x1 - r.x0
  let h := r.y1 - r.y0
  let nd : ℚ × ℚ :=
    if alt then
      if |dy| < |dx| then (dx, 0) else (0, dy)
    else if shift then
      if 0 < h then
        let aspect := w / h
        if |dy| < |dx| then (dx, dx / aspect) else (dy * aspect, dy)
      else (dx, 0)
    else (dx, dy)
  if ctrl then (r.x0 - nd.1, r.y0 - nd.2, r.x1 + nd.1, r.y1 + nd.2)
  else (r.x0, r.y0, r.x1 + nd.1, r.y1 + nd.2)

/-- The per-rectangle body of the `on_resize_drag` loop: apply the candidate
coordinates to the rectangle item and move the handle to the new
bottom-right corner when they are valid (`new_x1 > new_x0 and
new_y1 > new_y0`), otherwise leave the rectangle completely untouched. -/
def resizeApply (alt shift ctrl : Bool) (dx dy : ℚ) (r : DRect) : DRect :=
  match resizeCandidate alt shift ctrl dx dy r with
  | (a, b, c, d) =>
    if a < c ∧ b < d then { r with x0 := a, y0 := b, x1 := c, y1 := d, hx := c, hy := d }
    else r

/-- `DraggableRectangle.on_resize_drag` (draggable_rectangle.py lines
1258-1311), canvas-state effect: every rectangle in the selected set is
resized (or skipped) independently via `resizeApply`; unselected
rectangles are not visited.  The trailing `resize_start_*` update is
per-handler pointer state, not canvas state. -/
def resizeStep (sel : List Nat) (alt shift ctrl : Bool) (dx dy : ℚ)
    (p : Nat × DRect) : Nat × DRect :=
  if sel.contains p.1 then (p.1, resizeApply alt shift ctrl dx dy p.2) else p

def on_resize_drag (s : CState) (alt shift ctrl : Bool) (dx dy : ℚ) : CState :=
  { s with objects := s.objects.map (resizeStep s.selected_ids alt shift ctrl dx dy) }

/-- `DraggableRectangle.get_topleft_pos(relative_pos=origin)[0]`
(draggable_rectangle.py lines 914-947): the x coordinate with the origin
subtracted. -/
def keyX (origin : ℚ × ℚ) (r : DRect) : ℚ := r.x0 - origin.1

/-- The y coordinate with the origin subtracted. -/
def keyY (origin : ℚ × ℚ) (r : DRect) : ℚ := r.y0 - origin.2

/-- `DraggableRectangle.get_size()[0]` (draggable_rectangle.py lines
984-1009). -/
def widthOf (r : DRect) : ℚ := r.x1 - r.x0

/-- `DraggableRectangle.get_size()[1]`. -/
def heightOf (r : DRect) : ℚ := r.y1 - r.y0

/-- `DraggableRectangle.set_topleft_pos(new_pos, relative_pos=origin)`
(draggable_rectangle.py lines 823-856): add the origin back, then move the
rectangle item and the resize handle by the resulting delta. -/
def set_topleft_pos (origin : ℚ × ℚ) (r : DRect) (p : ℚ × ℚ) : DRect :=
  let dx := (p.1 + origin.1) - r.x0
  let dy := (p.2 + origin.2) - r.y0
  { r with x0 := r.x0 + dx, y0 := r.y0 + dy, x1 := r.x1 + dx, y1 := r.y1 + dy,
           hx := r.hx + dx, hy := r.hy + dy }

/-- Python float floor division `a // b` (draggable_rectangle.py lines 1142
and 1156): the floor of the exact quotient. -/
def pyFloorDiv (a b : ℚ) : ℚ :=
  ((Int.floor (a / b) : Int) : ℚ)

/-- The placement loop of `DraggableRectangle.distribute`
(draggable_rectangle.py lines 1144-1148): walk the sorted list, pinning
each rectangle's origin-relative x to the running position, which then
advances by that rectangle's width plus the computed spacing. -/
def placeH (origin : ℚ × ℚ) (space : ℚ) : ℚ → List DRect → List DRect
  | _, [] => []
  | x, r :: rest =>
    let r' := set_topleft_pos origin r (x, keyY origin r)
    r' :: placeH origin space (x + widthOf r' + space) rest

/-- The vertical placement loop (draggable_rectangle.py lines 1158-1162). -/
def placeV (origin : ℚ × ℚ) (space : ℚ) : ℚ → List DRect → List DRect
  | _, [] => []
  | y, r :: rest =>
    let r' := set_topleft_pos origin r (keyX origin r, y)
    r' :: placeV origin space (y + heightOf r' + space) rest

/-- The two distribution modes accepted by `DraggableRectangle.distribute`
(`DISTRIBUTE_MODES`, draggable_rectangle.py line 90); any other mode string
raises `ValueError` before the list is touched. -/
inductive DistMode
  | horizontal
  | vertical
  deriving DecidableEq, Repr

/-- `rectangles.sort(key=...)` (draggable_rectangle.py lines 1137/1151):
Python's list sort is stable and ascending on the key; `List.insertionSort`
with the non-strict key order realizes exactly that. -/
def pySortByKey (key : DRect → ℚ) (l : List DRect) : List DRect :=
  l.insertionSort (fun a b => key a ≤ key b)

/-- `DraggableRectangle.distribute(rectangles, mode, relative_pos)`
(draggable_rectangle.py lines 1109-1162), canvas-state effect on the
caller's list.  The list is sorted **in place** by the origin-relative
position along the axis; the total size and the span from the first to the
last sorted rectangle give `space_between` by *floor* division over
`len(rectangles) - 1`; then each rectangle is repositioned by the placement
loop.  The returned list is the list object the caller passed in, after
the in-place sort and the coordinate mutations.  Lists shorter than 2 are
returned untouched (the early `return` at line 1131). -/
def distribute (rectangles : List DRect) (mode : DistMode)
    (relative_pos : Option (ℚ × ℚ)) : List DRect :=
  if rectangles.length < 2 then rectangles
  else
    let origin := relative_pos.getD (0, 0)
    match mode with
    | DistMode.horizontal =>
      let sorted := pySortByKey (keyX origin) rectangles
      let total_width := (sorted.map widthOf).sum
      let first_x := ((sorted.head?).map (keyX origin)).getD 0
      let last_x := ((sorted.getLast?).map (keyX origin)).getD 0
      let space_between :=
        pyFloorDiv (last_x - first_x - total_width) ((rectangles.length : ℚ) - 1)
      placeH origin space_between first_x sorted
    | DistMode.vertical =>
      let sorted := pySortByKey (keyY origin) rectangles
      let total_height := (sorted.map heightOf).sum
      let first_y := ((sorted.head?).map (keyY origin)).getD 0
      let last_y := ((sorted.getLast?).map (keyY origin)).getD 0
      let space_between :=
        pyFloorDiv (last_y - first_y - total_height) ((rectangles.length : ℚ) - 1)
      placeV origin space_between first_y sorted

/-- The canvas methods that mutate the tracked state, as reachability
operations for the history claims.  `register` is
`_register_rectangle`, the canvas's documented registration entry point
("Called automatically when a DraggableRectangle is instantiated",
interactive_canvas.py line 179); the example applications additionally
call `save_state` directly. -/
inductive Op
  | register (rect : DRect)
  | create (x1 y1 x2 y2 : ℚ)
  | deleteRect (item_id : Nat)
  | save
  | undoOp
  | redoOp
  | selectOp (item_id : Nat)
  | deselectOp (item_id : Nat)
  deriving Repr

/-- Apply one operation; a raising operation leaves the tracked state as it
was (each embedded raise precedes every tracked-state mutation). -/
def applyOp (s : CState) : Op → CState
  | Op.register rect => register_rectangle s rect
  | Op.create x1 y1 x2 y2 => pyRun s (create_draggable_rectangle s x1 y1 x2 y2)
  | Op.deleteRect item_id => delete_draggable_rectangle s item_id
  | Op.save => pyRun s (save_state s)
  | Op.undoOp => undo s
  | Op.redoOp => redo s
  | Op.selectOp item_id => pyRun s (select_item s item_id)
  | Op.deselectOp item_id => pyRun s (deselect_item s item_id)

/-- Run a sequence of operations from a given state. -/
def runFrom (s : CState) (ops : List Op) : CState :=
  ops.foldl applyOp s

/-- Run a sequence of operations on a fresh history-enabled canvas. -/
def runOps (ops : List Op) : CState :=
  runFrom initialCanvas ops

/-- Number of history-snapshot appends an operation can perform:
`save_state` and `create_draggable_rectangle` (which ends in a
`save_state()` call) append at most one snapshot; no other operation
touches `history_states`. -/
def appendsOf : Op → Nat
  | Op.save => 1
  | Op.create _ _ _ _ => 1
  | _ => 0

/-- The coordinate list obtained by assigning `value` at `index` in the
rectangle's ordered 4-tuple, with Python's negative indexing. -/
def updatedCoords (r : DRect) (index : Int) (value : ℚ) : List ℚ :=
  r.coordsList.set ((if index < 0 then index + 4 else index).toNat) value

/-- The failed validity check of `__setitem__`: the assigned 4-tuple has
`x1 <= x0 or y1 <= y0`. -/
def badQuadList (l : List ℚ) : Prop :=
  l.getD 2 0 ≤ l.getD 0 0 ∨ l.getD 3 0 ≤ l.getD 1 0

instance (l : List ℚ) : Decidable (badQuadList l) := by
  unfold badQuadList; infer_instance

/-- Master lemma for evaluating `roundDouble` when the scaled significand
rounds down: if `q` lies in the binade `[2^(e+52), 2^(e+53))`, its exponent
is `e`, and when the fractional part of `q / 2^e` is below one half the
round-to-nearest-even result is `m * 2^e` with `m = ⌊q / 2^e⌋`. -/
theorem roundDouble_eq_down (q : ℚ) (m e : ℤ) (h0 : 0 < q)
    (hlo : (2 : ℚ) ^ (e + 52) ≤ q) (hhi : q < 2 ^ (e + 53))
    (hfl : ⌊q / 2 ^ e⌋ = m) (hfr : q / 2 ^ e - (m : ℚ) < 1 / 2) :
    roundDouble q = (m : ℚ) * 2 ^ e := by
  have hlog : Int.log 2 |q| = e + 52 := by
    rw [abs_of_pos h0]
    have h1 : e + 52 ≤ Int.log 2 q := by
      rw [← Int.zpow_le_iff_le_log (by norm_num) h0]
      exact_mod_cast hlo
    have h2 : Int.log 2 q < e + 53 := by
      rw [← Int.lt_zpow_iff_log_lt (by norm_num) h0]
      exact_mod_cast hhi
    omega
  have he : expOf q = e := by
    unfold expOf
    omega
  unfold roundDouble
  rw [if_neg (ne_of_gt h0), he]
  unfold rnEven
  rw [hfl]
  rw [if_pos hfr]

/-- Master lemma for evaluating `roundDouble` when the scaled significand
rounds up: same binade condition, but the fractional part of `q / 2^e`
exceeds one half, so round-to-nearest-even yields `(m + 1) * 2^e`. -/
theorem roundDouble_eq_up (q : ℚ) (m e : ℤ) (h0 : 0 < q)
    (hlo : (2 : ℚ) ^ (e + 52) ≤ q) (hhi : q < 2 ^ (e + 53))
    (hfl : ⌊q / 2 ^ e⌋ = m) (hfr : (1 : ℚ) / 2 < q / 2 ^ e - (m : ℚ)) :
    roundDouble q = ((m + 1 : ℤ) : ℚ) * 2 ^ e := by
  have hlog : Int.log 2 |q| = e + 52 := by
    rw [abs_of_pos h0]
    have h1 : e + 52 ≤ Int.log 2 q := by
      rw [← Int.zpow_le_iff_le_log (by norm_num) h0]
      exact_mod_cast hlo
    have h2 : Int.log 2 q < e + 53 := by
      rw [← Int.lt_zpow_iff_log_lt (by norm_num) h0]
      exact_mod_cast hhi
    omega
  have he : expOf q = e := by
    unfold expOf
    omega
  unfold roundDouble
  rw [if_neg (ne_of_gt h0), he]
  unfold rnEven
  rw [hfl]
  rw [if_neg (by linarith), if_pos hfr]

/-- The Python literal `25.4` denotes the binary64 value
`7149464408450662 * 2^(-48)` (slightly above 254/10). -/
theorem float25_4_eq : float25_4 = (7149464408450662 : ℚ) * 2 ^ (-48 : ℤ) := by
  apply roundDouble_eq_down ((254 : ℚ) / 10) 7149464408450662 (-48)
  · norm_num
  · norm_num
  · norm_num
  · rw [Int.floor_eq_iff]
    constructor <;> norm_num
  · rw [show ((254 : ℚ) / 10) / 2 ^ (-48 : ℤ) = (35747322042253312 : ℚ) / 5 from by norm_num]
    norm_num

/-- Python `int()` is the identity on values that are already integers. -/
theorem pyInt_intCast (v : ℤ) : pyInt ((v : ℤ) : ℚ) = v := by
  unfold pyInt
  rw [Rat.num_intCast, Rat.den_intCast]
  exact Int.tdiv_one v

/-- Python `int()` truncates any value in `[0, 1)` to `0`. -/
theorem pyInt_eq_zero (q : ℚ) (h0 : 0 ≤ q) (h1 : q < 1) : pyInt q = 0 := by
  unfold pyInt
  obtain ⟨n, hn⟩ := Int.eq_ofNat_of_zero_le (Rat.num_nonneg.mpr h0)
  have hdq : (0 : ℚ) < (q.den : ℚ) := by
    exact_mod_cast q.den_pos
  have hlt' : (q.num : ℚ) < (q.den : ℚ) := by
    rw [← Rat.num_div_den q] at h1
    exact (div_lt_one hdq).mp h1
  have hlt : q.num < (q.den : ℤ) := by exact_mod_cast hlt'
  rw [hn] at hlt ⊢
  have hnd : n < q.den := by exact_mod_cast hlt
  show (Int.ofNat n).tdiv (Int.ofNat q.den) = 0
  simp [Int.tdiv, Nat.div_eq_of_lt hnd]

/-- Step 1 of the `(v, dpi) = (1, 23)` pipeline: `1.0 * 25.4` is exact. -/
theorem c9_mul_1_c : fmul ((1 : ℤ) : ℚ) ((7149464408450662 : ℚ) * 2 ^ (-48 : ℤ)) =
    (7149464408450662 : ℚ) * 2 ^ (-48 : ℤ) := by
  unfold fmul
  rw [show (((1 : ℤ) : ℚ)) * ((7149464408450662 : ℚ) * 2 ^ (-48 : ℤ)) =
    (7149464408450662 : ℚ) * 2 ^ (-48 : ℤ) from by norm_num]
  apply roundDouble_eq_down _ 7149464408450662 (-48)
  · positivity
  · norm_num
  · norm_num
  · rw [show (7149464408450662 : ℚ) * 2 ^ (-48 : ℤ) / 2 ^ (-48 : ℤ) =
      (7149464408450662 : ℚ) from by
        rw [mul_div_assoc, div_self (by positivity), mul_one]]
    rw [Int.floor_eq_iff]
    constructor <;> norm_num
  · rw [show (7149464408450662 : ℚ) * 2 ^ (-48 : ℤ) / 2 ^ (-48 : ℤ) =
      (7149464408450662 : ℚ) from by
        rw [mul_div_assoc, div_self (by positivity), mul_one]]
    norm_num

/-- Step 2: `25.4 / 23` rounds down to `4973540458052634 * 2^(-52)`. -/
theorem c9_div_by_23 : fdiv ((7149464408450662 : ℚ) * 2 ^ (-48 : ℤ)) ((23 : ℤ) : ℚ) =
    (4973540458052634 : ℚ) * 2 ^ (-52 : ℤ) := by
  unfold fdiv
  rw [show ((7149464408450662 : ℚ) * 2 ^ (-48 : ℤ)) / ((23 : ℤ) : ℚ) =
    (7149464408450662 : ℚ) / (23 * 2 ^ 48) from by norm_num [div_eq_div_iff]]
  apply roundDouble_eq_down _ 4973540458052634 (-52)
  · positivity
  · norm_num
  · norm_num
  · rw [Int.floor_eq_iff]
    constructor
    · norm_num
    · norm_num
  · rw [show (7149464408450662 : ℚ) / (23 * 2 ^ 48) / 2 ^ (-52 : ℤ) =
      (114391430535210592 : ℚ) / 23 from by norm_num [div_eq_div_iff]]
    norm_num

/-- Step 3: multiplying back by 23 rounds down, losing one ulp:
the product is `7149464408450661 * 2^(-48)`, one below the float `25.4`. -/
theorem c9_mul_by_23 : fmul ((4973540458052634 : ℚ) * 2 ^ (-52 : ℤ)) ((23 : ℤ) : ℚ) =
    (7149464408450661 : ℚ) * 2 ^ (-48 : ℤ) := by
  unfold fmul
  rw [show ((4973540458052634 : ℚ) * 2 ^ (-52 : ℤ)) * ((23 : ℤ) : ℚ) =
    (114391430535210582 : ℚ) / 2 ^ 52 from by norm_num [div_eq_div_iff]]
  apply roundDouble_eq_down _ 7149464408450661 (-48)
  · positivity
  · norm_num
  · norm_num
  · rw [Int.floor_eq_iff]
    constructor <;> norm_num
  · rw [show (114391430535210582 : ℚ) / 2 ^ 52 / 2 ^ (-48 : ℤ) =
      (114391430535210582 : ℚ) / 16 from by norm_num [div_eq_div_iff]]
    norm_num

/-- Step 4: dividing the one-ulp-low product by the float `25.4` rounds up
to `9007199254740991 * 2^(-53)`, the largest double strictly below `1`. -/
theorem c9_div_by_c : fdiv ((7149464408450661 : ℚ) * 2 ^ (-48 : ℤ))
    ((7149464408450662 : ℚ) * 2 ^ (-48 : ℤ)) =
    (9007199254740991 : ℚ) * 2 ^ (-53 : ℤ) := by
  unfold fdiv
  rw [show ((7149464408450661 : ℚ) * 2 ^ (-48 : ℤ)) / ((7149464408450662 : ℚ) * 2 ^ (-48 : ℤ)) =
    (7149464408450661 : ℚ) / 7149464408450662 from by norm_num [div_eq_div_iff]]
  rw [roundDouble_eq_up ((7149464408450661 : ℚ) / 7149464408450662) 9007199254740990 (-53)
    (by positivity) (by norm_num) (by norm_num)
    (by
      rw [show (7149464408450661 : ℚ) / 7149464408450662 / 2 ^ (-53 : ℤ) =
        (32198325245797020492976783097856 : ℚ) / 3574732204225331 from by
          norm_num [div_eq_div_iff]]
      rw [Int.floor_eq_iff]
      constructor
      · rw [le_div_iff₀ (by norm_num)]
        norm_num
      · rw [div_lt_iff₀ (by norm_num)]
        norm_num)
    (by
      rw [show (7149464408450661 : ℚ) / 7149464408450662 / 2 ^ (-53 : ℤ) =
        (32198325245797020492976783097856 : ℚ) / 3574732204225331 from by
          norm_num [div_eq_div_iff]]
      rw [lt_sub_iff_add_lt, lt_div_iff₀ (by norm_num)]
      norm_num)]
  norm_num

/-- Step 1 of the `(v, dpi) = (100, 300)` pipeline: `100.0 * 25.4` rounds
up to `5585519069102080 * 2^(-41)`. -/
theorem c9_mul_100_c : fmul ((100 : ℤ) : ℚ) ((7149464408450662 : ℚ) * 2 ^ (-48 : ℤ)) =
    (5585519069102080 : ℚ) * 2 ^ (-41 : ℤ) := by
  unfold fmul
  rw [show (((100 : ℤ) : ℚ)) * ((7149464408450662 : ℚ) * 2 ^ (-48 : ℤ)) =
    (89368305105633275 : ℚ) / 2 ^ 45 from by norm_num [div_eq_div_iff]]
  rw [roundDouble_eq_up ((89368305105633275 : ℚ) / 2 ^ 45) 5585519069102079 (-41)
    (by positivity) (by norm_num) (by norm_num)
    (by
      rw [show (89368305105633275 : ℚ) / 2 ^ 45 / 2 ^ (-41 : ℤ) =
        (89368305105633275 : ℚ) / 16 from by norm_num [div_eq_div_iff]]
      rw [Int.floor_eq_iff]
      constructor <;> norm_num)
    (by
      rw [show (89368305105633275 : ℚ) / 2 ^ 45 / 2 ^ (-41 : ℤ) =
        (89368305105633275 : ℚ) / 16 from by norm_num [div_eq_div_iff]]
      norm_num)]
  norm_num

/-- Step 2: dividing by 300 rounds up to `4766309605633775 * 2^(-49)`. -/
theorem c9_div_by_300 : fdiv ((5585519069102080 : ℚ) * 2 ^ (-41 : ℤ)) ((300 : ℤ) : ℚ) =
    (4766309605633775 : ℚ) * 2 ^ (-49 : ℤ) := by
  unfold fdiv
  rw [show ((5585519069102080 : ℚ) * 2 ^ (-41 : ℤ)) / ((300 : ℤ) : ℚ) =
    (127 : ℚ) / 15 from by norm_num [div_eq_div_iff]]
  rw [roundDouble_eq_up ((127 : ℚ) / 15) 4766309605633774 (-49)
    (by positivity) (by norm_num) (by norm_num)
    (by
      rw [show (127 : ℚ) / 15 / 2 ^ (-49 : ℤ) =
        (71494644084506624 : ℚ) / 15 from by norm_num [div_eq_div_iff]]
      rw [Int.floor_eq_iff]
      constructor <;> norm_num)
    (by
      rw [show (127 : ℚ) / 15 / 2 ^ (-49 : ℤ) =
        (71494644084506624 : ℚ) / 15 from by norm_num [div_eq_div_iff]]
      norm_num)]
  norm_num

/-- Step 3: multiplying back by 300 rounds down, exactly cancelling the
step-2 upward error: the product equals the step-1 value again. -/
theorem c9_mul_by_300 : fmul ((4766309605633775 : ℚ) * 2 ^ (-49 : ℤ)) ((300 : ℤ) : ℚ) =
    (5585519069102080 : ℚ) * 2 ^ (-41 : ℤ) := by
  unfold fmul
  rw [show ((4766309605633775 : ℚ) * 2 ^ (-49 : ℤ)) * ((300 : ℤ) : ℚ) =
    (357473220422533125 : ℚ) / 2 ^ 47 from by norm_num [div_eq_div_iff]]
  apply roundDouble_eq_down _ 5585519069102080 (-41)
  · positivity
  · norm_num
  · norm_num
  · rw [show (357473220422533125 : ℚ) / 2 ^ 47 / 2 ^ (-41 : ℤ) =
      (357473220422533125 : ℚ) / 64 from by norm_num [div_eq_div_iff]]
    rw [Int.floor_eq_iff]
    constructor <;> norm_num
  · rw [show (357473220422533125 : ℚ) / 2 ^ 47 / 2 ^ (-41 : ℤ) =
      (357473220422533125 : ℚ) / 64 from by norm_num [div_eq_div_iff]]
    norm_num

/-- Step 4: the final division by the float `25.4` is exact and yields the
double `100.0 = 7036874417766400 * 2^(-46)`. -/
theorem c9_div_by_c_100 : fdiv ((5585519069102080 : ℚ) * 2 ^ (-41 : ℤ))
    ((7149464408450662 : ℚ) * 2 ^ (-48 : ℤ)) =
    (7036874417766400 : ℚ) * 2 ^ (-46 : ℤ) := by
  unfold fdiv
  rw [show ((5585519069102080 : ℚ) * 2 ^ (-41 : ℤ)) / ((7149464408450662 : ℚ) * 2 ^ (-48 : ℤ)) =
    (357473220422533120 : ℚ) / 3574732204225331 from by norm_num [div_eq_div_iff]]
  apply roundDouble_eq_down _ 7036874417766400 (-46)
  · positivity
  · rw [show ((2 : ℚ) ^ ((-46 : ℤ) + 52)) = (64 : ℚ) from by norm_num]
    rw [le_div_iff₀ (by norm_num)]
    norm_num
  · rw [show ((2 : ℚ) ^ ((-46 : ℤ) + 53)) = (128 : ℚ) from by norm_num]
    rw [div_lt_iff₀ (by norm_num)]
    norm_num
  · rw [show (357473220422533120 : ℚ) / 3574732204225331 / 2 ^ (-46 : ℤ) =
      (25154941598278927185950204231680 : ℚ) / 3574732204225331 from by
        norm_num [div_eq_div_iff]]
    rw [Int.floor_eq_iff]
    constructor
    · rw [le_div_iff₀ (by norm_num)]
      norm_num
    · rw [div_lt_iff₀ (by norm_num)]
      norm_num
  · rw [show (357473220422533120 : ℚ) / 3574732204225331 / 2 ^ (-46 : ℤ) =
      (25154941598278927185950204231680 : ℚ) / 3574732204225331 from by
        norm_num [div_eq_div_iff]]
    rw [sub_lt_iff_lt_add, div_lt_iff₀ (by norm_num)]
    norm_num

/-- Under the code's IEEE binary64 arithmetic, the roundtrip at
`v = 1`, `dpi = 23` truncates to `0`: `1 * 25.4 / 23` loses one ulp on the
way back, landing just below `1.0`. -/
theorem float_roundtrip_1_23 :
    convert_mm_to_px (convert_px_to_mm ((1 : ℤ) : ℚ) 23) 23 = 0 := by
  unfold convert_px_to_mm convert_mm_to_px
  rw [float25_4_eq, c9_mul_1_c, c9_div_by_23, c9_mul_by_23, c9_div_by_c]
  apply pyInt_eq_zero
  · positivity
  · rw [show (9007199254740991 : ℚ) * 2 ^ (-53 : ℤ) =
      (9007199254740991 : ℚ) / 9007199254740992 from by norm_num [div_eq_div_iff]]
    rw [div_lt_iff₀ (by norm_num)]
    norm_num

/-- Under the code's IEEE binary64 arithmetic, the roundtrip at the
repository's tested input `v = 100`, `dpi = 300` returns exactly `100`. -/
theorem float_roundtrip_100_300 :
    convert_mm_to_px (convert_px_to_mm ((100 : ℤ) : ℚ) 300) 300 = 100 := by
  unfold convert_px_to_mm convert_mm_to_px
  rw [float25_4_eq, c9_mul_100_c, c9_div_by_300, c9_mul_by_300, c9_div_by_c_100]
  rw [show (7036874417766400 : ℚ) * 2 ^ (-46 : ℤ) = ((100 : ℤ) : ℚ) from by
    norm_num [div_eq_div_iff]]
  exact pyInt_intCast 100

/-- Evaluating the conversion formulas in exact real arithmetic, the
roundtrip is the identity on integer pixel values for every positive dpi:
`v * 25.4 / dpi * dpi / 25.4 = v` exactly, and `int()` is the identity on
integers. -/
theorem exact_roundtrip_identity (v dpi : Int) (hdpi : 0 < dpi) :
    convert_mm_to_px_exact (convert_px_to_mm_exact (v : ℚ) dpi) dpi = v := by
  have hd : (dpi : ℚ) ≠ 0 := Int.cast_ne_zero.mpr (ne_of_gt hdpi)
  have h1 : convert_px_to_mm_exact (v : ℚ) dpi * (dpi : ℚ) / ((254 : ℚ) / 10) = (v : ℚ) := by
    unfold convert_px_to_mm_exact
    field_simp
    ring
  unfold convert_mm_to_px_exact
  rw [h1]
  exact pyInt_intCast v

/-- Counterexample to C9: under the program's floating-point arithmetic
the roundtrip is NOT the identity for all integer pixel values — at
`v = 1`, `dpi = 23` the composite `convert_mm_to_px(convert_px_to_mm(1, 23), 23)`
evaluates to `0`, not `1`. -/
theorem C9_float_roundtrip_counterexample :
    convert_mm_to_px (convert_px_to_mm ((1 : ℤ) : ℚ) 23) 23 = 0 ∧
      convert_mm_to_px (convert_px_to_mm ((1 : ℤ) : ℚ) 23) 23 ≠ 1 := by
  refine ⟨float_roundtrip_1_23, ?_⟩
  rw [float_roundtrip_1_23]
  decide

/-- C9 amended: the roundtrip identity
`convert_mm_to_px(convert_px_to_mm(v, dpi), dpi) == v` holds for every
integer pixel value and positive dpi when the conversion formulas are
evaluated in exact real arithmetic; under the code's actual IEEE binary64
arithmetic it holds at the repository's tested input `v = 100`,
`dpi = 300`, but not universally. -/
theorem C9_px_mm_roundtrip_amended :
    (∀ v dpi : Int, 0 < dpi →
        convert_mm_to_px_exact (convert_px_to_mm_exact (v : ℚ) dpi) dpi = v) ∧
      convert_mm_to_px (convert_px_to_mm ((100 : ℤ) : ℚ) 300) 300 = 100 :=
  ⟨exact_roundtrip_identity, float_roundtrip_100_300⟩

/-- Witness for C9 amended at `v = 7`, `dpi = 96`. -/
theorem C9_px_mm_roundtrip_amended_witness :
    (0 : Int) < 96 ∧
      convert_mm_to_px_exact (convert_px_to_mm_exact ((7 : Int) : ℚ) 96) 96 = 7 :=
  ⟨by decide, C9_px_mm_roundtrip_amended.1 7 96 (by decide)⟩

/-- C8: for every rectangle and every index in `[-4, 4)`, an index
assignment whose resulting 4-tuple would satisfy `x1 ≤ x0` or `y1 ≤ y0`
raises `ValueError` (the spec's `InvalidArgument` kind) and leaves all four
coordinates and the handle position exactly as they were — the raise
precedes both `canvas.coords` mutations, so the caught run returns the
untouched rectangle. -/
theorem C8_setitem_invalid_rejected (r : DRect) (index : Int) (value : ℚ)
    (h1 : -4 ≤ index) (h2 : index < 4)
    (hbad : badQuadList (updatedCoords r index value)) :
    setitem_ r index value = Except.error PyErr.valueError ∧
      pyRun r (setitem_ r index value) = r := by
  have hrange : ¬(index < -4 ∨ 4 ≤ index) := by omega
  have hmain : setitem_ r index value = Except.error PyErr.valueError := by
    interval_cases index <;>
      simp_all [setitem_, updatedCoords, badQuadList, DRect.coordsList]
  exact ⟨hmain, by rw [hmain]; rfl⟩

/-- Witness for C8: assigning `x1 := 0` (index 2) on the rectangle
`(0, 0, 10, 10)` makes `x1 ≤ x0`. -/
theorem C8_setitem_invalid_rejected_witness :
    (-4 : Int) ≤ 2 ∧ (2 : Int) < 4 ∧
      badQuadList (updatedCoords (DRect.init 0 0 10 10 300 0) 2 0) ∧
      setitem_ (DRect.init 0 0 10 10 300 0) 2 0 = Except.error PyErr.valueError ∧
      pyRun (DRect.init 0 0 10 10 300 0) (setitem_ (DRect.init 0 0 10 10 300 0) 2 0) =
        DRect.init 0 0 10 10 300 0 :=
  ⟨by decide, by decide, by decide,
    C8_setitem_invalid_rejected (DRect.init 0 0 10 10 300 0) 2 0
      (by decide) (by decide) (by decide)⟩

/-- C1 (defect): whenever the object map of a history-enabled canvas
contains at least one rectangle, `save_state` does **not** append a
snapshot — it raises `AttributeError`, because the per-object loop reads
`obj.fill_color` (interactive_canvas.py line 701) and no code in the
repository ever assigns a `fill_color` attribute to a `DraggableRectangle`
(the hypothesis `hattr` records that invariant of every constructor).
This contradicts `save_state`'s own docstring, which promises to capture
"fill color, line width, handle radius". -/
theorem C1_save_state_raises_attribute_error (s : CState)
    (hh : s.enable_history = true) (hobj : s.objects ≠ [])
    (hattr : ∀ p ∈ s.objects, p.2.fill_color_attr = none) :
    save_state s = Except.error PyErr.attributeError := by
  obtain ⟨p, rest, hcons⟩ := List.exists_cons_of_ne_nil hobj
  have hp : p.2.fill_color_attr = none := hattr p (by rw [hcons]; exact List.mem_cons_self p rest)
  have hMap : ((p :: rest).mapM (fun q => do
      let e ← snapEntryOf q.2
      pure (q.1, e))) =
      (Except.error PyErr.attributeError : Except PyErr (List (Nat × SnapEntry))) := by
    rw [List.mapM_cons]
    simp [snapEntryOf, readAttr, hp, Except.bind]
    rfl
  unfold save_state
  rw [if_neg (by rw [hh]; simp)]
  rw [hcons, hMap]
  rfl

/-- A canvas whose object map holds one rectangle, produced by the canvas's
own registration method from the fresh state. -/
def c1State : CState :=
  register_rectangle initialCanvas (DRect.init 10 10 100 100 300 0)

/-- Witness for C1 at a concrete one-rectangle canvas. -/
theorem C1_save_state_raises_attribute_error_witness :
    c1State.enable_history = true ∧ c1State.objects ≠ [] ∧
      (∀ p ∈ c1State.objects, p.2.fill_color_attr = none) ∧
      save_state c1State = Except.error PyErr.attributeError :=
  ⟨by decide, by decide, by decide,
    C1_save_state_raises_attribute_error c1State (by decide) (by decide) (by decide)⟩

/-- C2 (defect): on a fresh history-enabled canvas, one
`create_draggable_rectangle` call leaves the object count at 0 (not 1):
`_register_rectangle` is never invoked by `DraggableRectangle.__init__`
or anywhere else, although its docstring says it is called automatically
on instantiation and the repository's own test
(tests/test_canvas.py, test_create_rectangle) asserts
`len(canvas.objects) == 1`.  Consequently `undo` leaves the count at 0
(vacuously matching the claim) and `redo` restores 0 rather than the
claimed 1. -/
theorem C2_create_undo_redo_object_counts :
    (runOps [Op.create 10 10 100 100]).objects.length = 0 ∧
      (runOps [Op.create 10 10 100 100, Op.undoOp]).objects.length = 0 ∧
      (runOps [Op.create 10 10 100 100, Op.undoOp, Op.redoOp]).objects.length = 0 := by
  decide

/-- With an empty object map the snapshot loop succeeds trivially and
`save_state` reduces to a pure history push of the empty-objects snapshot. -/
theorem save_state_nil (s : CState) (hen : s.enable_history = true)
    (hobj : s.objects = []) :
    save_state s = Except.ok (save_push s
      { objects := [], next_item_id := s.next_item_id, selected := s.selected_ids }) := by
  unfold save_state
  rw [if_neg (by rw [hen]; simp), hobj]
  rfl

/-- When the history list is at the cap with the cursor at the tip, a push
evicts the oldest entry, appends the new snapshot, and leaves the cursor
untouched. -/
theorem save_push_at_cap (s : CState) (snap : Snap)
    (hlen : s.history_states.length = s.max_history)
    (hidx : s.history_index + 1 = s.max_history) :
    save_push s snap = { s with history_states := s.history_states.tail ++ [snap] } := by
  unfold save_push
  rw [if_neg (show ¬(s.history_index + 1 < s.history_states.length) from by omega)]
  rw [if_pos (show s.max_history < (s.history_states ++ [snap]).length from by
    simp only [List.length_append, List.length_cons, List.length_nil]; omega)]
  have hdrop : (s.history_states ++ [snap]).drop 1 = s.history_states.tail ++ [snap] := by
    rw [List.drop_append_of_le_length (by omega), List.drop_one]
  rw [hdrop]

set_option maxRecDepth 10000 in
/-- C4: on a `max_history = 50` canvas, 60 `save_state` operations leave
exactly 50 history entries (cursor at 49); and in the general capped
configuration (`len = max_history`, cursor at the tip, empty object map so
the snapshot loop succeeds) each further `save_state` evicts the oldest
entry, keeps the cursor where it is, and keeps the size at `max_history`. -/
theorem C4_history_cap :
    ((runOps (List.replicate 60 Op.save)).history_states.length = 50 ∧
      (runOps (List.replicate 60 Op.save)).history_index = 49) ∧
    (∀ s : CState, s.enable_history = true → s.objects = [] →
      s.history_states.length = s.max_history →
      s.history_index + 1 = s.max_history →
      save_state s = Except.ok { s with history_states := s.history_states.tail ++
          [{ objects := [], next_item_id := s.next_item_id, selected := s.selected_ids }] } ∧
        (pyRun s (save_state s)).history_states.length = s.max_history ∧
        (pyRun s (save_state s)).history_index = s.history_index) := by
  constructor
  · decide
  · intro s h1 h2 h3 h4
    have hs := save_state_nil s h1 h2
    rw [save_push_at_cap s _ h3 h4] at hs
    refine ⟨hs, ?_, ?_⟩
    · rw [hs]
      simp only [pyRun, List.length_append, List.length_tail, List.length_cons,
        List.length_nil]
      omega
    · rw [hs]
      rfl

/-- The canvas after 60 `save_state` operations, used as the concrete capped
configuration. -/
def s60 : CState := runOps (List.replicate 60 Op.save)

set_option maxRecDepth 10000 in
/-- Witness for C4's general capped-eviction statement at the concrete
canvas reached by 60 saves. -/
theorem C4_history_cap_witness :
    s60.enable_history = true ∧ s60.objects = [] ∧
      s60.history_states.length = s60.max_history ∧
      s60.history_index + 1 = s60.max_history ∧
      (pyRun s60 (save_state s60)).history_states.length = s60.max_history ∧
      (pyRun s60 (save_state s60)).history_index = s60.history_index :=
  ⟨by decide, by decide, by decide, by decide,
    (C4_history_cap.2 s60 (by decide) (by decide) (by decide) (by decide)).2.1,
    (C4_history_cap.2 s60 (by decide) (by decide) (by decide) (by decide)).2.2⟩

/-- `select_item` never touches the history fields. -/
theorem select_item_hist_frame (s : CState) (j : Nat) :
    (pyRun s (select_item s j)).history_states = s.history_states ∧
      (pyRun s (select_item s j)).history_index = s.history_index ∧
      (pyRun s (select_item s j)).max_history = s.max_history ∧
      (pyRun s (select_item s j)).enable_history = s.enable_history := by
  cases hd : dictGet s.objects j <;> simp [select_item, hd, pyRun]

/-- The selection-restoring fold of `_restore_state` never touches the
history fields. -/
theorem restore_fold_hist_frame (l : List Nat) :
    ∀ st : CState,
      ((l.foldl
        (fun st j => if (dictGet st.objects j).isSome then pyRun st (select_item st j) else st)
        st).history_states = st.history_states ∧
      (l.foldl
        (fun st j => if (dictGet st.objects j).isSome then pyRun st (select_item st j) else st)
        st).history_index = st.history_index ∧
      (l.foldl
        (fun st j => if (dictGet st.objects j).isSome then pyRun st (select_item st j) else st)
        st).max_history = st.max_history ∧
      (l.foldl
        (fun st j => if (dictGet st.objects j).isSome then pyRun st (select_item st j) else st)
        st).enable_history = st.enable_history) := by
  induction l with
  | nil => intro st; exact ⟨rfl, rfl, rfl, rfl⟩
  | cons a t ih =>
    intro st
    rw [List.foldl_cons]
    by_cases hs : (dictGet st.objects a).isSome
    · rw [if_pos hs]
      obtain ⟨e1, e2, e3, e4⟩ := ih (pyRun st (select_item st a))
      obtain ⟨f1, f2, f3, f4⟩ := select_item_hist_frame st a
      exact ⟨e1.trans f1, e2.trans f2, e3.trans f3, e4.trans f4⟩
    · rw [if_neg hs]
      exact ih st

/-- `_restore_state` rebuilds the object map and selection but never touches
the history fields. -/
theorem restore_state_hist_frame (s : CState) (snap : Snap) :
    (restore_state s snap).history_states = s.history_states ∧
      (restore_state s snap).history_index = s.history_index ∧
      (restore_state s snap).max_history = s.max_history ∧
      (restore_state s snap).enable_history = s.enable_history := by
  unfold restore_state
  exact restore_fold_hist_frame snap.selected _

/-- A history push below the cap preserves the head of the history list,
grows it by at most one entry, and keeps `max_history`. -/
theorem save_push_head (s : CState) (snap : Snap)
    (h1 : s.history_states.head? = some emptySnap)
    (h2 : s.history_states.length + 1 ≤ s.max_history) :
    (save_push s snap).history_states.head? = some emptySnap ∧
      (save_push s snap).history_states.length ≤ s.history_states.length + 1 ∧
      (save_push s snap).max_history = s.max_history := by
  obtain ⟨t, ht⟩ : ∃ t, s.history_states = emptySnap :: t := by
    cases hl : s.history_states with
    | nil => rw [hl] at h1; simp at h1
    | cons a t =>
      rw [hl] at h1
      simp only [List.head?_cons, Option.some_inj] at h1
      exact ⟨t, by rw [h1]⟩
  unfold save_push
  by_cases hidx : s.history_index + 1 < s.history_states.length
  · rw [if_pos hidx, ht, List.take_succ_cons]
    have hlen : ((emptySnap :: t.take s.history_index) ++ [snap]).length ≤ s.max_history := by
      simp only [List.length_append, List.length_cons, List.length_take, List.length_nil]
      rw [ht] at h2
      simp only [List.length_cons] at h2
      omega
    rw [if_neg (by omega)]
    refine ⟨rfl, ?_, rfl⟩
    simp only [List.cons_append, List.length_append, List.length_cons, List.length_take,
      List.length_nil, ht]
    omega
  · rw [if_neg hidx]
    have hlen : (s.history_states ++ [snap]).length ≤ s.max_history := by
      simp only [List.length_append, List.length_cons, List.length_nil]
      omega
    rw [if_neg (by omega)]
    refine ⟨?_, ?_, rfl⟩
    · rw [ht, List.cons_append, List.head?_cons]
    · simp only [List.length_append, List.length_cons, List.length_nil]
      omega

/-- A caught `save_state` below the cap preserves the head of the history
list, grows it by at most one entry, and keeps `max_history`. -/
theorem save_state_head (s : CState)
    (h1 : s.history_states.head? = some emptySnap)
    (h2 : s.history_states.length + 1 ≤ s.max_history) :
    (pyRun s (save_state s)).history_states.head? = some emptySnap ∧
      (pyRun s (save_state s)).history_states.length ≤ s.history_states.length + 1 ∧
      (pyRun s (save_state s)).max_history = s.max_history := by
  by_cases hen : s.enable_history = false
  · have hsv : save_state s = Except.ok s := by unfold save_state; rw [if_pos hen]
    rw [hsv]
    exact ⟨h1, Nat.le_add_right _ _, by trivial⟩
  · cases hm : s.objects.mapM (fun p => do
        let e ← snapEntryOf p.2
        pure (p.1, e)) with
    | error e =>
      have hsv : save_state s = Except.error e := by
        unfold save_state; rw [if_neg hen, hm]; rfl
      rw [hsv]
      exact ⟨h1, Nat.le_add_right _ _, by trivial⟩
    | ok entries =>
      have hsv : save_state s = Except.ok (save_push s
          { objects := entries, next_item_id := s.next_item_id,
            selected := s.selected_ids }) := by
        unfold save_state; rw [if_neg hen, hm]; rfl
      rw [hsv]
      exact save_push_head s _ h1 h2

/-- Every canvas operation run below the history cap preserves the head of
the history list, grows the list by at most its append count, and keeps
`max_history`. -/
theorem applyOp_head (s : CState) (op : Op)
    (h1 : s.history_states.head? = some emptySnap)
    (h2 : s.history_states.length + appendsOf op ≤ s.max_history) :
    (applyOp s op).history_states.head? = some emptySnap ∧
      (applyOp s op).history_states.length ≤ s.history_states.length + appendsOf op ∧
      (applyOp s op).max_history = s.max_history := by
  cases op with
  | register r =>
    simp only [applyOp]
    unfold register_rectangle
    by_cases hc : (s.objects.any fun p => dunderEq p.2 r) = true
    · rw [if_pos hc]
      exact ⟨h1, Nat.le_add_right _ _, by trivial⟩
    · rw [if_neg hc]
      exact ⟨h1, Nat.le_add_right _ _, by trivial⟩
  | create x1 y1 x2 y2 =>
    simp only [applyOp]
    exact save_state_head s h1 h2
  | deleteRect i =>
    simp only [applyOp]
    unfold delete_draggable_rectangle
    cases hd : dictGet s.objects i
    · simp only [hd]
      exact ⟨h1, Nat.le_add_right _ _, by trivial⟩
    · simp only [hd]
      exact ⟨h1, Nat.le_add_right _ _, by trivial⟩
  | save =>
    simp only [applyOp]
    exact save_state_head s h1 h2
  | undoOp =>
    simp only [applyOp]
    unfold undo
    by_cases he : s.enable_history = false
    · rw [if_pos he]
      exact ⟨h1, Nat.le_add_right _ _, by trivial⟩
    · rw [if_neg he]
      by_cases hi : 0 < s.history_index
      · rw [if_pos hi]
        cases hg : s.history_states.get? (s.history_index - 1) with
        | none =>
          simp only [hg]
          exact ⟨h1, Nat.le_add_right _ _, by trivial⟩
        | some snap =>
          simp only [hg]
          obtain ⟨k1, k2, k3, k4⟩ := restore_state_hist_frame
            { s with history_index := s.history_index - 1 } snap
          refine ⟨?_, ?_, k3⟩
          · rw [k1]; exact h1
          · rw [k1]; exact Nat.le_add_right _ _
      · rw [if_neg hi]
        exact ⟨h1, Nat.le_add_right _ _, by trivial⟩
  | redoOp =>
    simp only [applyOp]
    unfold redo
    by_cases he : s.enable_history = false
    · rw [if_pos he]
      exact ⟨h1, Nat.le_add_right _ _, by trivial⟩
    · rw [if_neg he]
      by_cases hi : s.history_index + 1 < s.history_states.length
      · rw [if_pos hi]
        cases hg : s.history_states.get? (s.history_index + 1) with
        | none =>
          simp only [hg]
          exact ⟨h1, Nat.le_add_right _ _, by trivial⟩
        | some snap =>
          simp only [hg]
          obtain ⟨k1, k2, k3, k4⟩ := restore_state_hist_frame
            { s with history_index := s.history_index + 1 } snap
          refine ⟨?_, ?_, k3⟩
          · rw [k1]; exact h1
          · rw [k1]; exact Nat.le_add_right _ _
      · rw [if_neg hi]
        exact ⟨h1, Nat.le_add_right _ _, by trivial⟩
  | selectOp i =>
    simp only [applyOp]
    obtain ⟨f1, f2, f3, f4⟩ := select_item_hist_frame s i
    refine ⟨?_, ?_, f3⟩
    · show (pyRun s (select_item s i)).history_states.head? = some emptySnap
      rw [f1]; exact h1
    · show (pyRun s (select_item s i)).history_states.length ≤
        s.history_states.length + appendsOf (Op.selectOp i)
      rw [f1]; exact Nat.le_add_right _ _
  | deselectOp i =>
    simp only [applyOp]
    cases hd : dictGet s.objects i
    · simp only [deselect_item, hd, pyRun]
      exact ⟨h1, Nat.le_add_right _ _, by trivial⟩
    · simp only [deselect_item, hd, pyRun]
      exact ⟨h1, Nat.le_add_right _ _, by trivial⟩

/-- Running any operation sequence whose total snapshot-append count keeps
the history below the cap preserves the head of the history list. -/
theorem runFrom_head (ops : List Op) :
    ∀ s : CState, s.history_states.head? = some emptySnap →
      s.history_states.length + (ops.map appendsOf).sum ≤ s.max_history →
      (runFrom s ops).history_states.head? = some emptySnap := by
  induction ops with
  | nil => intro s h1 _; exact h1
  | cons op rest ih =>
    intro s h1 h2
    simp only [List.map_cons, List.sum_cons] at h2
    obtain ⟨g1, g2, g3⟩ := applyOp_head s op h1 (by omega)
    have hrun : runFrom s (op :: rest) = runFrom (applyOp s op) rest := rfl
    rw [hrun]
    exact ih (applyOp s op) g1 (by rw [g3]; omega)

/-- C3 (amended): the snapshot at index 0 of the history list is the
empty-canvas state in every canvas state reached by an operation sequence
that appends fewer than `max_history = 50` snapshots in total — i.e. until
the cap first evicts the oldest entry.  (The unamended claim fails once
eviction begins; see the counterexample.) -/
theorem C3_index0_empty_before_eviction (ops : List Op)
    (h : (ops.map appendsOf).sum + 1 ≤ 50) :
    (runOps ops).history_states.get? 0 = some emptySnap := by
  have hh : (runOps ops).history_states.head? = some emptySnap := by
    unfold runOps
    exact runFrom_head ops initialCanvas rfl (by simp [initialCanvas]; omega)
  cases hl : (runOps ops).history_states with
  | nil => rw [hl] at hh; simp at hh
  | cons a t => rw [hl] at hh; simp only [List.head?_cons] at hh; simp [hh]

/-- Witness for the amended C3 at a single explicit save. -/
theorem C3_index0_empty_before_eviction_witness :
    (([Op.save].map appendsOf).sum + 1 ≤ 50) ∧
      (runOps [Op.save]).history_states.get? 0 = some emptySnap :=
  ⟨by decide, C3_index0_empty_before_eviction [Op.save] (by decide)⟩

/-- A concrete operation sequence that drives a nonempty snapshot into
index 0: register one rectangle through the canvas's registration method
(bumping `next_item_id` to 1), delete it again, then save 50 times so the
cap evicts the initial empty state. -/
def c3Ops : List Op :=
  Op.register (DRect.init 10 10 100 100 300 0) :: Op.deleteRect 0 ::
    List.replicate 50 Op.save

set_option maxRecDepth 10000 in
/-- C3 (counterexample): after `c3Ops` the reachable canvas has
`history_states[0] = {objects: {}, next_item_id: 1, selected: []}`, which is
not the empty-canvas state — the cap eviction `pop(0)` removed the initial
empty snapshot, so repeated undo now terminates at a state with
`next_item_id = 1` rather than the pristine blank surface. -/
theorem C3_counterexample_index0_not_empty :
    (runOps c3Ops).history_states.get? 0 =
        some { objects := [], next_item_id := 1, selected := [] } ∧
      (runOps c3Ops).history_states.get? 0 ≠ some emptySnap := by
  constructor
  · decide
  · decide

/-- Unfolding a dict read over a cons cell. -/
theorem dictGet_cons (q : Nat × DRect) (rest : List (Nat × DRect)) (j : Nat) :
    dictGet (q :: rest) j = if q.1 = j then some q.2 else dictGet rest j := by
  by_cases h : q.1 = j <;> simp [dictGet, List.find?, h]

/-- Unfolding an in-place update over a cons cell. -/
theorem dictSet_cons (q : Nat × DRect) (rest : List (Nat × DRect)) (k : Nat) (v : DRect) :
    dictSet (q :: rest) k v = (if q.1 = k then (k, v) else q) :: dictSet rest k v := by
  simp [dictSet]

/-- Reading back the key just written by an in-place object update. -/
theorem dictGet_dictSet_same (l : List (Nat × DRect)) (k : Nat) (v : DRect)
    (h : (dictGet l k).isSome) : dictGet (dictSet l k v) k = some v := by
  induction l with
  | nil => simp [dictGet] at h
  | cons p t ih =>
    rw [dictSet_cons]
    by_cases hp : p.1 = k
    · rw [if_pos hp, dictGet_cons, if_pos rfl]
    · rw [dictGet_cons, if_neg hp] at h
      rw [if_neg hp, dictGet_cons, if_neg hp]
      exact ih h

/-- An in-place object update leaves every other key's value unchanged. -/
theorem dictGet_dictSet_ne (l : List (Nat × DRect)) (k j : Nat) (v : DRect)
    (h : j ≠ k) : dictGet (dictSet l k v) j = dictGet l j := by
  induction l with
  | nil => simp [dictGet, dictSet]
  | cons p t ih =>
    rw [dictSet_cons, dictGet_cons, dictGet_cons]
    by_cases hp : p.1 = k
    · have h1 : ¬((k, v).1 = j) := fun hh => h (hh.symm)
      have h2 : ¬(p.1 = j) := fun hh => h (by rw [← hh, hp])
      rw [if_pos hp, if_neg h1, if_neg h2]
      exact ih
    · rw [if_neg hp]
      by_cases hq : p.1 = j
      · rw [if_pos hq, if_pos hq]
      · rw [if_neg hq, if_neg hq]
        exact ih

/-- C5 (amended): a shift-click on a rectangle (the `additive` modifier)
**selects** it when it is unselected — leaving every other rectangle's
object state and selection membership unchanged — but when the rectangle
is already selected (and ctrl is not held) the click leaves the canvas
state entirely unchanged: `on_click` has no branch that deselects an
already-selected rectangle under shift, so shift-click does not toggle. -/
theorem C5_shift_click (s : CState) (item_id : Nat) (r : DRect) (ctrl : Bool)
    (hr : dictGet s.objects item_id = some r) :
    (r.is_selected = false →
      on_click s true ctrl (some item_id) = Except.ok { s with
          objects := dictSet s.objects item_id
            { r with is_selected := true, displayed_outline := s.select_outline_color },
          selected_ids :=
            if s.selected_ids.contains item_id then s.selected_ids
            else s.selected_ids ++ [item_id] } ∧
        item_id ∈ (pyRun s (on_click s true ctrl (some item_id))).selected_ids ∧
        (∀ j, j ≠ item_id →
          dictGet (pyRun s (on_click s true ctrl (some item_id))).objects j =
              dictGet s.objects j ∧
            (j ∈ (pyRun s (on_click s true ctrl (some item_id))).selected_ids ↔
              j ∈ s.selected_ids))) ∧
    (r.is_selected = true → item_id ∈ s.selected_ids → ctrl = false →
      on_click s true ctrl (some item_id) = Except.ok s) := by
  constructor
  · intro hsel
    have hsi : select_item s item_id = Except.ok { s with
        objects := dictSet s.objects item_id
          { r with is_selected := true, displayed_outline := s.select_outline_color },
        selected_ids :=
          if s.selected_ids.contains item_id then s.selected_ids
          else s.selected_ids ++ [item_id] } := by
      unfold select_item
      rw [hr]
    have ht : toggle_selection s item_id = select_item s item_id := by
      unfold toggle_selection
      rw [hr]
      show (if r.is_selected = true then deselect_item s item_id
        else select_item s item_id) = _
      rw [hsel]
      simp
    have hoc : on_click s true ctrl (some item_id) = select_item s item_id := by
      simp only [on_click]
      rw [hr]
      show (if (true && !r.is_selected) = true then toggle_selection s item_id else _) = _
      rw [hsel, ht]
      simp
    refine ⟨by rw [hoc, hsi], ?_, ?_⟩
    · rw [hoc, hsi]
      show item_id ∈ (if s.selected_ids.contains item_id then s.selected_ids
        else s.selected_ids ++ [item_id])
      by_cases hc : s.selected_ids.contains item_id
      · rw [if_pos hc]
        exact List.mem_of_elem_eq_true hc
      · rw [if_neg hc]
        exact List.mem_append_right _ (List.mem_singleton_self item_id)
    · intro j hj
      rw [hoc, hsi]
      constructor
      · show dictGet (dictSet s.objects item_id _) j = dictGet s.objects j
        exact dictGet_dictSet_ne s.objects item_id j _ hj
      · show j ∈ (if s.selected_ids.contains item_id then s.selected_ids
          else s.selected_ids ++ [item_id]) ↔ j ∈ s.selected_ids
        by_cases hc : s.selected_ids.contains item_id
        · rw [if_pos hc]
        · rw [if_neg hc]
          simp [List.mem_append, hj]
  · intro hsel hmem hctrl
    have hlen : ¬((get_selected s).length < 1) := by
      have hrm : r ∈ get_selected s :=
        List.mem_filterMap.mpr ⟨item_id, hmem, hr⟩
      have := List.length_pos.mpr (List.ne_nil_of_mem hrm)
      omega
    simp only [on_click]
    rw [hr]
    show (if (true && !r.is_selected) = true then _ else _) = _
    rw [hsel, hctrl]
    simp [hlen]

/-- A rectangle that is currently selected (flag set, select color shown). -/
def c5SelRect : DRect :=
  { DRect.init 0 0 10 10 300 0 with is_selected := true, displayed_outline := 1 }

/-- A two-rectangle canvas with rectangle 0 selected and rectangle 1 not. -/
def c5State : CState :=
  { initialCanvas with
    objects := [(0, c5SelRect), (1, DRect.init 20 20 30 30 300 0)]
    selected_ids := [0]
    next_item_id := 2 }

/-- C5 (counterexample): shift-clicking the already-selected rectangle 0
(ctrl not held) leaves the canvas state unchanged — rectangle 0 stays
selected, so the claimed toggle-off ("deselecting it when selected") does
not happen. -/
theorem C5_shift_click_on_selected_not_deselected :
    on_click c5State true false (some 0) = Except.ok c5State ∧
      (dictGet (pyRun c5State (on_click c5State true false (some 0))).objects 0).map
          DRect.is_selected = some true ∧
      0 ∈ (pyRun c5State (on_click c5State true false (some 0))).selected_ids := by
  refine ⟨rfl, rfl, by decide⟩

/-- The rectangle 1 of `c5State` after shift-click selection. -/
def c5NewRect : DRect :=
  { DRect.init 20 20 30 30 300 0 with
    is_selected := true
    displayed_outline := c5State.select_outline_color }

/-- The canvas `c5State` after shift-clicking unselected rectangle 1. -/
def c5AfterSel : CState :=
  { c5State with
    objects := dictSet c5State.objects 1 c5NewRect
    selected_ids :=
      if c5State.selected_ids.contains 1 then c5State.selected_ids
      else c5State.selected_ids ++ [1] }

/-- Witness for the amended C5: shift-clicking the unselected rectangle 1
adds it to the selection; shift-clicking the selected rectangle 0 is a
no-op. -/
theorem C5_shift_click_witness :
    on_click c5State true false (some 1) = Except.ok c5AfterSel ∧
      on_click c5State true false (some 0) = Except.ok c5State :=
  ⟨((C5_shift_click c5State 1 (DRect.init 20 20 30 30 300 0) false rfl).1 rfl).1,
    (C5_shift_click c5State 0 c5SelRect false rfl).2 rfl (by decide) rfl⟩

/-- Validity of the candidate coordinates of one resize step. -/
def candValid (alt shift ctrl : Bool) (dx dy : ℚ) (r : DRect) : Prop :=
  validQuad (resizeCandidate alt shift ctrl dx dy r).1
    (resizeCandidate alt shift ctrl dx dy r).2.1
    (resizeCandidate alt shift ctrl dx dy r).2.2.1
    (resizeCandidate alt shift ctrl dx dy r).2.2.2

instance (alt shift ctrl : Bool) (dx dy : ℚ) (r : DRect) :
    Decidable (candValid alt shift ctrl dx dy r) := by
  unfold candValid; infer_instance

/-- The rectangle after an accepted resize step: the rectangle item takes
the candidate coordinates and the handle moves to the new bottom-right
corner. -/
def candApplied (alt shift ctrl : Bool) (dx dy : ℚ) (r : DRect) : DRect :=
  { r with
    x0 := (resizeCandidate alt shift ctrl dx dy r).1
    y0 := (resizeCandidate alt shift ctrl dx dy r).2.1
    x1 := (resizeCandidate alt shift ctrl dx dy r).2.2.1
    y1 := (resizeCandidate alt shift ctrl dx dy r).2.2.2
    hx := (resizeCandidate alt shift ctrl dx dy r).2.2.1
    hy := (resizeCandidate alt shift ctrl dx dy r).2.2.2 }

/-- The per-rectangle resize body in terms of the candidate test. -/
theorem resizeApply_eq (alt shift ctrl : Bool) (dx dy : ℚ) (r : DRect) :
    resizeApply alt shift ctrl dx dy r =
      if candValid alt shift ctrl dx dy r then candApplied alt shift ctrl dx dy r
      else r := by
  unfold resizeApply candValid candApplied validQuad
  set m := resizeCandidate alt shift ctrl dx dy r with hm
  obtain ⟨a, b, c, d⟩ := m
  rfl

set_option linter.unusedVariables false in
/-- C7: during a batch resize-drag over the selected set, a selected
rectangle whose candidate coordinates are degenerate (`x1 ≤ x0` or
`y1 ≤ y0`) is left completely unchanged (coordinates and handle), a
selected rectangle with valid candidate coordinates is resized (item and
handle), unselected rectangles are untouched, and the validity invariant
`x1 > x0 ∧ y1 > y0` is preserved for every rectangle.  The hypothesis
`hsel` (every selected rectangle currently satisfies the data-model
invariant) is the domain on which the rational embedding is faithful: for
a degenerate selected rectangle with zero width and positive height,
Python's aspect-ratio division would raise `ZeroDivisionError` instead. -/
theorem C7_resize_drag_skip_and_invariant (s : CState) (alt shift ctrl : Bool)
    (dx dy : ℚ)
    (hsel : ∀ p ∈ s.objects, s.selected_ids.contains p.1 = true →
      validQuad p.2.x0 p.2.y0 p.2.x1 p.2.y1) :
    (on_resize_drag s alt shift ctrl dx dy).objects =
        s.objects.map (resizeStep s.selected_ids alt shift ctrl dx dy) ∧
      ∀ p ∈ s.objects,
        (s.selected_ids.contains p.1 = false →
          resizeStep s.selected_ids alt shift ctrl dx dy p = p) ∧
        (s.selected_ids.contains p.1 = true →
          (¬ candValid alt shift ctrl dx dy p.2 →
            resizeStep s.selected_ids alt shift ctrl dx dy p = p) ∧
          (candValid alt shift ctrl dx dy p.2 →
            resizeStep s.selected_ids alt shift ctrl dx dy p =
              (p.1, candApplied alt shift ctrl dx dy p.2))) ∧
        (validQuad p.2.x0 p.2.y0 p.2.x1 p.2.y1 →
          validQuad (resizeStep s.selected_ids alt shift ctrl dx dy p).2.x0
            (resizeStep s.selected_ids alt shift ctrl dx dy p).2.y0
            (resizeStep s.selected_ids alt shift ctrl dx dy p).2.x1
            (resizeStep s.selected_ids alt shift ctrl dx dy p).2.y1) := by
  refine ⟨rfl, ?_⟩
  intro p hp
  refine ⟨?_, ?_, ?_⟩
  · intro hc
    unfold resizeStep
    rw [hc]
    simp
  · intro hc
    constructor
    · intro hnv
      unfold resizeStep
      rw [hc, if_pos rfl, resizeApply_eq, if_neg hnv]
    · intro hv
      unfold resizeStep
      rw [hc, if_pos rfl, resizeApply_eq, if_pos hv]
  · intro hval
    by_cases hc : s.selected_ids.contains p.1 = true
    · have hstep : resizeStep s.selected_ids alt shift ctrl dx dy p =
          (p.1, resizeApply alt shift ctrl dx dy p.2) := by
        unfold resizeStep
        rw [hc, if_pos rfl]
      rw [hstep, resizeApply_eq]
      by_cases hv : candValid alt shift ctrl dx dy p.2
      · rw [if_pos hv]
        simpa [candApplied, candValid] using hv
      · rw [if_neg hv]
        exact hval
    · have hc' : s.selected_ids.contains p.1 = false := by
        revert hc
        cases s.selected_ids.contains p.1 <;> simp
      have hstep : resizeStep s.selected_ids alt shift ctrl dx dy p = p := by
        unfold resizeStep
        rw [hc']
        simp
      rw [hstep]
      exact hval

/-- Witness for C7 at the two-rectangle canvas `c5State` (rectangle 0
selected and valid) with a plain 5-by-5 resize delta. -/
theorem C7_resize_drag_witness :
    (∀ p ∈ c5State.objects, c5State.selected_ids.contains p.1 = true →
      validQuad p.2.x0 p.2.y0 p.2.x1 p.2.y1) ∧
      (on_resize_drag c5State false false false 5 5).objects =
        c5State.objects.map (resizeStep c5State.selected_ids false false false 5 5) :=
  ⟨by decide,
    (C7_resize_drag_skip_and_invariant c5State false false false 5 5 (by decide)).1⟩

/-- All data of a rectangle that a horizontal distribution pass cannot
change: everything except the x positions of the item and its handle. -/
def projH (r : DRect) : ℚ × ℚ × ℚ × ℚ × Int × Bool × Color × Color :=
  (r.y0, r.y1, r.hy, widthOf r, r.dpi, r.is_selected, r.original_outline,
    r.displayed_outline)

/-- All data of a rectangle that a vertical distribution pass cannot
change. -/
def projV (r : DRect) : ℚ × ℚ × ℚ × ℚ × Int × Bool × Color × Color :=
  (r.x0, r.x1, r.hx, heightOf r, r.dpi, r.is_selected, r.original_outline,
    r.displayed_outline)

/-- Pinning a rectangle's origin-relative x while keeping its own y leaves
every non-x datum unchanged. -/
theorem projH_set_topleft (origin : ℚ × ℚ) (r : DRect) (x : ℚ) :
    projH (set_topleft_pos origin r (x, keyY origin r)) = projH r := by
  simp [projH, set_topleft_pos, keyY, widthOf]
  ring

/-- Pinning a rectangle's origin-relative y while keeping its own x leaves
every non-y datum unchanged. -/
theorem projV_set_topleft (origin : ℚ × ℚ) (r : DRect) (y : ℚ) :
    projV (set_topleft_pos origin r (keyX origin r, y)) = projV r := by
  simp [projV, set_topleft_pos, keyX, heightOf]
  ring

/-- The horizontal placement loop only moves rectangles horizontally. -/
theorem placeH_map_projH (origin : ℚ × ℚ) (space : ℚ) :
    ∀ (x : ℚ) (l : List DRect), (placeH origin space x l).map projH = l.map projH := by
  intro x l
  induction l generalizing x with
  | nil => rfl
  | cons r rest ih =>
    simp only [placeH, List.map_cons]
    rw [projH_set_topleft, ih]

/-- The vertical placement loop only moves rectangles vertically. -/
theorem placeV_map_projV (origin : ℚ × ℚ) (space : ℚ) :
    ∀ (y : ℚ) (l : List DRect), (placeV origin space y l).map projV = l.map projV := by
  intro y l
  induction l generalizing y with
  | nil => rfl
  | cons r rest ih =>
    simp only [placeV, List.map_cons]
    rw [projV_set_topleft, ih]

/-- The embedded stable sort is sorted by the key. -/
theorem pySortByKey_sorted (key : DRect → ℚ) (l : List DRect) :
    List.Pairwise (fun a b => key a ≤ key b) (pySortByKey key l) := by
  haveI : IsTotal DRect (fun a b => key a ≤ key b) := ⟨fun a b => le_total _ _⟩
  haveI : IsTrans DRect (fun a b => key a ≤ key b) := ⟨fun _ _ _ => le_trans⟩
  exact List.sorted_insertionSort _ l

/-- The embedded stable sort is a permutation of its input. -/
theorem pySortByKey_perm (key : DRect → ℚ) (l : List DRect) :
    (pySortByKey key l).Perm l :=
  List.perm_insertionSort _ l

/-- C10: for every list of 2 or more rectangles, `distribute` operates on —
and returns — the caller's own list, reordered in place by the stable sort
on the origin-relative position along the distribution axis: the output
list is, element by element, the key-sorted permutation of the input
(identified by every non-axis datum, which placement does not change), so
after the call the caller's list is in sorted order rather than its
original order. -/
theorem C10_distribute_sorts_in_place (rs : List DRect) (origin : ℚ × ℚ)
    (h2 : 2 ≤ rs.length) :
    ((distribute rs DistMode.horizontal (some origin)).map projH =
        (pySortByKey (keyX origin) rs).map projH ∧
      List.Pairwise (fun a b => keyX origin a ≤ keyX origin b)
        (pySortByKey (keyX origin) rs) ∧
      (pySortByKey (keyX origin) rs).Perm rs) ∧
    ((distribute rs DistMode.vertical (some origin)).map projV =
        (pySortByKey (keyY origin) rs).map projV ∧
      List.Pairwise (fun a b => keyY origin a ≤ keyY origin b)
        (pySortByKey (keyY origin) rs) ∧
      (pySortByKey (keyY origin) rs).Perm rs) := by
  have hn : ¬(rs.length < 2) := by omega
  constructor
  · refine ⟨?_, pySortByKey_sorted _ _, pySortByKey_perm _ _⟩
    unfold distribute
    rw [if_neg hn]
    exact placeH_map_projH origin _ _ _
  · refine ⟨?_, pySortByKey_sorted _ _, pySortByKey_perm _ _⟩
    unfold distribute
    rw [if_neg hn]
    exact placeV_map_projV origin _ _ _

/-- Witness for C10 on a concrete two-element list (given in reverse x
order, so the sort actually reorders it). -/
theorem C10_distribute_sorts_in_place_witness :
    (2 ≤ ([DRect.init 20 20 30 30 300 0, DRect.init 0 0 10 10 300 0] : List DRect).length) ∧
      (distribute [DRect.init 20 20 30 30 300 0, DRect.init 0 0 10 10 300 0]
          DistMode.horizontal (some (0, 0))).map projH =
        (pySortByKey (keyX (0, 0))
          [DRect.init 20 20 30 30 300 0, DRect.init 0 0 10 10 300 0]).map projH :=
  ⟨by decide,
    (C10_distribute_sorts_in_place
      [DRect.init 20 20 30 30 300 0, DRect.init 0 0 10 10 300 0] (0, 0) (by decide)).1.1⟩

/-- Re-pinning a rectangle to its own current origin-relative position is
the identity. -/
theorem set_topleft_pos_self (origin : ℚ × ℚ) (r : DRect) :
    set_topleft_pos origin r (keyX origin r, keyY origin r) = r := by
  simp [set_topleft_pos, keyX, keyY]

/-- The x positions produced by a horizontal placement pass over three
rectangles: the running coordinate starts at `x` and advances by each
width plus the spacing. -/
theorem placeH_three (origin : ℚ × ℚ) (sp x : ℚ) (r1 r2 r3 : DRect) :
    (placeH origin sp x [r1, r2, r3]).map (fun r => r.x0) =
      [x + origin.1, x + widthOf r1 + sp + origin.1,
        x + widthOf r1 + sp + widthOf r2 + sp + origin.1] := by
  simp [placeH, set_topleft_pos, widthOf]
  ring_nf
  exact ⟨trivial, trivial⟩

/-- The spacing `distribute` computes for three equal-width rectangles:
the slack `last.x − first.x − Σ widths`, floor-divided over the 2 gaps. -/
def c6Space (a c : DRect) (w : ℚ) : ℚ :=
  pyFloorDiv (c.x0 - a.x0 - 3 * w) 2

/-- The exact outcome of horizontal `distribute` on three equal-width
rectangles listed in increasing x order: the first stays put and the x0
values form an arithmetic progression with common difference
`w + c6Space`. -/
theorem distribute3_formula (a b c : DRect) (w : ℚ)
    (hwa : widthOf a = w) (hwb : widthOf b = w) (hwc : widthOf c = w)
    (hab : a.x0 < b.x0) (hbc : b.x0 < c.x0) :
    (distribute [a, b, c] DistMode.horizontal none).head? = some a ∧
      (distribute [a, b, c] DistMode.horizontal none).map (fun r => r.x0) =
        [a.x0, a.x0 + (w + c6Space a c w), a.x0 + 2 * (w + c6Space a c w)] := by
  have hkab : keyX (0, 0) a ≤ keyX (0, 0) b := by
    simp only [keyX]
    linarith
  have hkbc : keyX (0, 0) b ≤ keyX (0, 0) c := by
    simp only [keyX]
    linarith
  have hsort : pySortByKey (keyX (0, 0)) [a, b, c] = [a, b, c] := by
    unfold pySortByKey
    simp only [List.insertionSort, List.orderedInsert_nil]
    rw [List.orderedInsert_of_le (fun u v : DRect => keyX (0, 0) u ≤ keyX (0, 0) v) _ hkbc,
      List.orderedInsert_of_le (fun u v : DRect => keyX (0, 0) u ≤ keyX (0, 0) v) _ hkab]
  have hlen2 : ¬(([a, b, c] : List DRect).length < 2) := by simp
  have hmap : (distribute [a, b, c] DistMode.horizontal none).map (fun r => r.x0) =
      [a.x0, a.x0 + (w + c6Space a c w), a.x0 + 2 * (w + c6Space a c w)] := by
    unfold distribute
    rw [if_neg hlen2]
    simp only [Option.getD_none, hsort]
    rw [show ((([a, b, c] : List DRect).head?).map (keyX (0, 0))).getD 0 =
      keyX (0, 0) a from rfl]
    rw [show ((([a, b, c] : List DRect).getLast?).map (keyX (0, 0))).getD 0 =
      keyX (0, 0) c from rfl]
    rw [show (([a, b, c] : List DRect).map widthOf).sum =
      widthOf a + (widthOf b + (widthOf c + 0)) from rfl]
    rw [show ((([a, b, c] : List DRect).length : ℚ)) = (3 : ℚ) from by norm_num]
    rw [placeH_three]
    have hsp : pyFloorDiv
        (keyX (0, 0) c - keyX (0, 0) a - (widthOf a + (widthOf b + (widthOf c + 0))))
        ((3 : ℚ) - 1) = c6Space a c w := by
      unfold c6Space
      congr 1
      · simp only [keyX, hwa, hwb, hwc]
        ring
      · norm_num
    rw [hsp]
    simp only [keyX, hwa, hwb]
    norm_num
    refine ⟨by ring, by ring⟩
  refine ⟨?_, hmap⟩
  have hhead : (distribute [a, b, c] DistMode.horizontal none).head? =
      some (set_topleft_pos (0, 0) a (keyX (0, 0) a, keyY (0, 0) a)) := by
    unfold distribute
    rw [if_neg hlen2]
    simp only [Option.getD_none, hsort]
    rfl
  rw [hhead, set_topleft_pos_self]

/-- C6 (amended): for three equal-width rectangles listed in increasing x
order, horizontal `distribute` leaves the first (leftmost) rectangle fully
in place and produces x0 values in arithmetic progression with common
difference `w + ⌊slack / 2⌋` — the slack share is the **floor** division
of `(last.x − first.x − Σ widths)` by the 2 gaps, not the exact half — and
those positions are strictly increasing exactly when that common
difference is positive (overlapping inputs can make it zero or negative). -/
theorem C6_distribute_horizontal_amended (a b c : DRect) (w : ℚ)
    (hwa : widthOf a = w) (hwb : widthOf b = w) (hwc : widthOf c = w)
    (hab : a.x0 < b.x0) (hbc : b.x0 < c.x0) :
    (distribute [a, b, c] DistMode.horizontal none).head? = some a ∧
      (distribute [a, b, c] DistMode.horizontal none).map (fun r => r.x0) =
        [a.x0, a.x0 + (w + c6Space a c w), a.x0 + 2 * (w + c6Space a c w)] ∧
      (0 < w + c6Space a c w →
        List.Chain' (fun u v => u < v)
          ((distribute [a, b, c] DistMode.horizontal none).map (fun r => r.x0))) := by
  obtain ⟨h1, h2⟩ := distribute3_formula a b c w hwa hwb hwc hab hbc
  refine ⟨h1, h2, ?_⟩
  intro hpos
  rw [h2]
  simp only [List.chain'_cons, List.chain'_singleton, and_true]
  constructor
  · linarith
  · linarith

/-- Counterexample rectangle, width 10, x0 = 0. -/
def c6A : DRect := DRect.init 0 0 10 10 300 0

/-- Counterexample rectangle, width 10, x0 = 1. -/
def c6B : DRect := DRect.init 1 0 11 10 300 0

/-- Counterexample rectangle, width 10, x0 = 9. -/
def c6C : DRect := DRect.init 9 0 19 10 300 0

/-- C6 (counterexample): three equal-width (10) rectangles at the distinct,
increasing x positions 0, 1, 9.  `distribute` computes slack
`9 − 30 = −21` and floor-divides it into a spacing of `−11`, producing the
x0 values `[0, −1, −2]`: **not** strictly increasing, and not the
`[0, −0.5, −1]` that dividing the slack evenly (exactly) among the 2 gaps
would give — the second rectangle lands at `−1`, not at
`first.x + w + slack/2 = −0.5`. -/
theorem C6_distribute_counterexample :
    (distribute [c6A, c6B, c6C] DistMode.horizontal none).map (fun r => r.x0) =
        [0, -1, -2] ∧
      ¬ List.Chain' (fun u v => u < v)
        ((distribute [c6A, c6B, c6C] DistMode.horizontal none).map (fun r => r.x0)) ∧
      ((distribute [c6A, c6B, c6C] DistMode.horizontal none).map (fun r => r.x0)).getD 1 0 ≠
        c6A.x0 + widthOf c6A +
          (c6C.x0 - c6A.x0 - (widthOf c6A + widthOf c6B + widthOf c6C)) / 2 := by
  have hwa : widthOf c6A = 10 := by norm_num [widthOf, c6A, DRect.init]
  have hwb : widthOf c6B = 10 := by norm_num [widthOf, c6B, DRect.init]
  have hwc : widthOf c6C = 10 := by norm_num [widthOf, c6C, DRect.init]
  have hab : c6A.x0 < c6B.x0 := by norm_num [c6A, c6B, DRect.init]
  have hbc : c6B.x0 < c6C.x0 := by norm_num [c6B, c6C, DRect.init]
  obtain ⟨h1, h2⟩ := distribute3_formula c6A c6B c6C 10 hwa hwb hwc hab hbc
  have hfl : (⌊((-21 : ℚ)) / 2⌋ : ℤ) = -11 := by
    rw [Int.floor_eq_iff]
    constructor <;> norm_num
  have hs : c6Space c6A c6C 10 = -11 := by
    unfold c6Space pyFloorDiv
    rw [show ((c6C.x0 - c6A.x0 - 3 * 10 : ℚ)) / 2 = ((-21 : ℚ)) / 2 from by
      norm_num [c6A, c6C, DRect.init]]
    rw [hfl]
    norm_num
  have hmap : (distribute [c6A, c6B, c6C] DistMode.horizontal none).map (fun r => r.x0) =
      [0, -1, -2] := by
    rw [h2, hs]
    norm_num [c6A, DRect.init]
  refine ⟨hmap, ?_, ?_⟩
  · rw [hmap]
    norm_num [List.chain'_cons]
  · rw [hmap]
    norm_num [c6A, c6B, c6C, DRect.init, widthOf]

/-- Non-overlapping witness rectangles for the amended C6. -/
def c6WA : DRect := DRect.init 0 0 10 10 300 0

/-- Second witness rectangle. -/
def c6WB : DRect := DRect.init 20 0 30 10 300 0

/-- Third witness rectangle. -/
def c6WC : DRect := DRect.init 50 0 60 10 300 0

/-- Witness for the amended C6 at three concrete non-overlapping
rectangles (slack 20, spacing 10). -/
theorem C6_distribute_horizontal_amended_witness :
    (distribute [c6WA, c6WB, c6WC] DistMode.horizontal none).head? = some c6WA ∧
      (distribute [c6WA, c6WB, c6WC] DistMode.horizontal none).map (fun r => r.x0) =
        [c6WA.x0, c6WA.x0 + (10 + c6Space c6WA c6WC 10),
          c6WA.x0 + 2 * (10 + c6Space c6WA c6WC 10)] :=
  ⟨(C6_distribute_horizontal_amended c6WA c6WB c6WC 10
      (by norm_num [widthOf, c6WA, DRect.init]) (by norm_num [widthOf, c6WB, DRect.init])
      (by norm_num [widthOf, c6WC, DRect.init]) (by norm_num [c6WA, c6WB, DRect.init])
      (by norm_num [c6WB, c6WC, DRect.init])).1,
    (C6_distribute_horizontal_amended c6WA c6WB c6WC 10
      (by norm_num [widthOf, c6WA, DRect.init]) (by norm_num [widthOf, c6WB, DRect.init])
      (by norm_num [widthOf, c6WC, DRect.init]) (by norm_num [c6WA, c6WB, DRect.init])
      (by norm_num [c6WB, c6WC, DRect.init])).2.1⟩
